import Mathlib

/-!
The go-spacemesh p2p core: swarm dispatcher and connection pool.

A shallow embedding of `src/p2p/swarm.go`,
`src/p2p/connectionpool/connectionpool.go`, `src/p2p/net/session.go`,
`src/p2p/net/conn.go` and `src/p2p/net/network.go`.

Conventions of the embedding

* A Go `error` value is an `Option Err` (`none` is `nil`).
* A Go `map[string]T` is an association list read with `mapGet`, written with
  `mapSet` and `mapDelete`; a key occurs at most once after a write.
* A channel is a natural-number identity; a completed channel send is recorded
  in a trace, in program order. Scheduling (when a blocked send resumes) is
  outside the embedding, except for the unbuffered `closeChan` of a connection,
  whose only receiver is the event loop of that connection: there the embedding
  says whether a receiver exists.
* Collaborators that live outside the sources (protobuf decoding, time drift
  check, message signing, gossip, DHT, session cipher behind the
  `NetworkSession` interface) are fields of `Collaborators`, so every theorem
  holds for all of their behaviours.
-/

namespace P2P

/-- Byte strings (`[]byte`). -/
abbrev Bytes := List Nat

/-- The error values of `swarm.go` (lines 295-314); `other` stands for the
errors produced by collaborators, `wrap` for `fmt.Errorf` around an inner
error. -/
inductive Err where
  | ErrBadFormat1
  | ErrBadFormat2
  | ErrOutOfSync
  | ErrNoPayload
  | ErrFailDecrypt
  | ErrAuthAuthor
  | ErrNoProtocol
  | ErrNoSession
  | ErrNotFromPeer
  | other (msg : String)
  | wrap (msg : String) (inner : Err)
  deriving DecidableEq, Repr

/-- A `crypto.PublicKey`: its `Bytes()` and its `String()` form. -/
structure PublicKey where
  bytes : Bytes
  str : String
  deriving DecidableEq, Repr

/-- A `node.Node` as built by `node.New(pubKey, address)`. -/
structure Node where
  pubKey : PublicKey
  address : String
  deriving DecidableEq, Repr

/-- A `net.NetworkSession` value (the data it carries; its cipher is reached
through `Collaborators.decrypt`). -/
structure NetworkSession where
  id : Bytes
  deriving DecidableEq, Repr

/-- A `net.Connection` (`FormattedConnection` of `conn.go`): the fields read by
the swarm and the pool. `session = none` is a nil session. The remote address
is the text of `RemoteAddr().String()`. The remote public key is set: `conn.go`
publishes an event only for a connection with a session, which is attached
after the key, and line 322 of `swarm.go` dereferences the key first thing. -/
structure Connection where
  id : String
  remotePub : PublicKey
  remoteAddr : String
  remoteListenPort : Int
  session : Option NetworkSession
  deriving DecidableEq, Repr

/-- A `net.IncomingMessageEvent`. -/
structure IncomingMessageEvent where
  Conn : Connection
  Message : Bytes
  deriving DecidableEq, Repr

/-- The `pb.CommonMessageData` envelope. -/
structure CommonMessageData where
  Timestamp : Int
  Payload : Bytes
  deriving DecidableEq, Repr

/-- The `pb.Metadata` of a protocol message. -/
structure Metadata where
  Protocol : String
  AuthPubKey : Bytes
  Timestamp : Int
  Gossip : Bool
  AuthorSign : Bytes
  deriving DecidableEq, Repr

/-- The `pb.ProtocolMessage`; `Metadata` is a pointer and may be nil. -/
structure ProtocolMessage where
  Metadata : Option Metadata
  Payload : Bytes
  deriving DecidableEq, Repr

/-- The `protocolMessage` handed to a protocol handler (lines 27-38). -/
structure protocolMessage where
  sender : Node
  data : Bytes
  deriving DecidableEq, Repr

/-- How a call ends: it returns an error value, or it panics. -/
inductive Outcome where
  | returned (err : Option Err)
  | panicked
  deriving DecidableEq, Repr

/-- Lookup in a Go map. -/
def mapGet {α : Type} (m : List (String × α)) (k : String) : Option α :=
  match m with
  | [] => none
  | (k', v) :: rest => if k' = k then some v else mapGet rest k

/-- The Go builtin `delete(m, k)`. -/
def mapDelete {α : Type} (m : List (String × α)) (k : String) : List (String × α) :=
  match m with
  | [] => []
  | (k', v) :: rest => if k' = k then mapDelete rest k else (k', v) :: mapDelete rest k

/-- The Go assignment `m[k] = v`. -/
def mapSet {α : Type} (m : List (String × α)) (k : String) (v : α) : List (String × α) :=
  (k, v) :: mapDelete m k

/-- The collaborators of the swarm that are not part of the sources. -/
structure Collaborators where
  /-- `proto.Unmarshal` into a `pb.CommonMessageData`; `none` is an error. -/
  unmarshalCommon : Bytes → Option CommonMessageData
  /-- `timesync.CheckMessageDrift`. -/
  checkMessageDrift : Int → Bool
  /-- `NetworkSession.Decrypt`; `none` is an error. -/
  decrypt : NetworkSession → Bytes → Option Bytes
  /-- `proto.Unmarshal` into a `pb.ProtocolMessage`; `none` is an error. -/
  unmarshalProtocol : Bytes → Option ProtocolMessage
  /-- `message.AuthAuthor`. -/
  authAuthor : ProtocolMessage → Option Err
  /-- `gossip.Broadcast`. -/
  gossipBroadcast : Bytes → Option Err
  /-- `gossip.Peer`: the node (`none` is `node.EmptyNode`) and its connection
  (`none` is a nil interface value). -/
  gossipPeer : String → Option Node × Option Connection
  /-- `dht.Lookup`. -/
  dhtLookup : String → Except Err Node
  /-- `cPool.GetConnection`, seen from its caller. -/
  getConnection : String → PublicKey → Except Err Connection
  /-- `message.NewProtocolMessageMetadata` for the local node. -/
  newMetadata : String → Bool → Metadata
  /-- `message.SignMessage` with the local private key. -/
  signMessage : ProtocolMessage → Except Err ProtocolMessage
  /-- `proto.Marshal`. -/
  marshal : ProtocolMessage → Except Err Bytes
  /-- `message.PrepareMessage`. -/
  prepareMessage : NetworkSession → Bytes → Except Err Bytes
  /-- `Connection.Send` (the formatter's `Out`). -/
  connSend : Connection → Bytes → Option Err

/-- The part of the `swarm` struct the dispatcher reads: the protocol handler
map, from protocol name to channel, and the allocator of channel identities. -/
structure swarm where
  protocolHandlers : List (String × Nat)
  nextChan : Nat
  deriving DecidableEq, Repr

/-- The observable effects of one dispatcher call, each in program order. -/
structure Effects where
  /-- Arguments of the calls to `dht.Update`. -/
  dhtUpdates : List Node
  /-- Arguments of the calls to `gossip.Broadcast`. -/
  broadcasts : List Bytes
  /-- Sends on protocol handler channels: channel and message. -/
  handlerSends : List (Nat × protocolMessage)
  /-- Calls of `Connection.Send`: connection and frame. -/
  connSends : List (Connection × Bytes)
  deriving DecidableEq, Repr

/-- No effect at all. -/
def noEffects : Effects :=
  { dhtUpdates := [], broadcasts := [], handlerSends := [], connSends := [] }

/-- `RegisterProtocol` (lines 210-216): a new channel is made and stored under
the protocol name; the channel is returned. -/
def RegisterProtocol (s : swarm) (protocol : String) : swarm × Nat :=
  let mchan := s.nextChan
  ({ protocolHandlers := mapSet s.protocolHandlers protocol mchan,
     nextChan := s.nextChan + 1 }, mchan)

/-- The pieces of a character list between the occurrences of `sep`. -/
def splitChars (sep : Char) : List Char → List (List Char)
  | [] => [[]]
  | c :: cs =>
    if c = sep then [] :: splitChars sep cs
    else
      match splitChars sep cs with
      | [] => [[c]]
      | h :: t => (c :: h) :: t

/-- Go's `strings.Split(s, sep)` for a separator of one character. -/
def stringsSplit (s : String) (sep : Char) : List String :=
  (splitChars sep s.data).map String.mk

/-- The node built on line 376:
`node.New(RemotePublicKey(), Sprintf("%v:%v", Split(RemoteAddr().String(), ":")[0], RemoteListenPort()))`. -/
def remoteNodeOf (c : Connection) : Node :=
  { pubKey := c.remotePub,
    address := (stringsSplit c.remoteAddr ':').headD "" ++ ":" ++ toString c.remoteListenPort }

/-- `onRemoteClientMessage` (lines 321-404). -/
def onRemoteClientMessage (env : Collaborators) (s : swarm) (msg : IncomingMessageEvent) :
    Outcome × Effects :=
  match env.unmarshalCommon msg.Message with
  | none => (.returned (some .ErrBadFormat1), noEffects)
  | some c =>
    if !env.checkMessageDrift c.Timestamp then
      (.returned (some .ErrOutOfSync), noEffects)
    else if c.Payload.length = 0 then
      (.returned (some .ErrNoPayload), noEffects)
    else
      match msg.Conn.session with
      | none => (.returned (some .ErrNoSession), noEffects)
      | some session =>
        match env.decrypt session c.Payload with
        | none => (.returned (some .ErrFailDecrypt), noEffects)
        | some decPayload =>
          match env.unmarshalProtocol decPayload with
          | none => (.returned (some .ErrBadFormat2), noEffects)
          | some pm =>
            match pm.Metadata with
            | none => (.panicked, noEffects)
            | some md =>
              match env.authAuthor pm with
              | some _ => (.returned (some .ErrAuthAuthor), noEffects)
              | none =>
                if !md.Gossip && !(md.AuthPubKey == msg.Conn.remotePub.bytes) then
                  (.returned (some .ErrNotFromPeer), noEffects)
                else
                  let remoteNode := remoteNodeOf msg.Conn
                  let e1 : Effects := { noEffects with dhtUpdates := [remoteNode] }
                  -- `err` is nil here; it is overwritten only for gossip
                  let err : Option Err := if md.Gossip then env.gossipBroadcast decPayload else none
                  let e2 : Effects := if md.Gossip then { e1 with broadcasts := [decPayload] } else e1
                  match err with
                  | some _ => (.returned none, e2)
                  | none =>
                    match mapGet s.protocolHandlers md.Protocol with
                    | none => (.returned (some .ErrNoProtocol), e2)
                    | some msgchan =>
                      (.returned none,
                        { e2 with handlerSends := [(msgchan, ⟨remoteNode, pm.Payload⟩)] })

/-- Lines 174-206 of `SendMessage`: what happens once `conn` is chosen. `err`
is the value the variable `err` holds when line 174 is reached. -/
def SendMessage.onConn (env : Collaborators) (conn : Option Connection) (err : Option Err)
    (protocol : String) (payload : Bytes) : Outcome × Effects :=
  match conn with
  | none => (.panicked, noEffects)
  | some conn =>
    match conn.session with
    | none => (.returned err, noEffects)
    | some session =>
      let protomessage : ProtocolMessage :=
        { Metadata := some (env.newMetadata protocol false), Payload := payload }
      match env.signMessage protomessage with
      | .error e => (.returned (some e), noEffects)
      | .ok protomessage =>
        match env.authAuthor protomessage with
        | some e => (.returned (some e), noEffects)
        | none =>
          match env.marshal protomessage with
          | .error e =>
            (.returned (some (.wrap "failed to encode signed message err: " e)), noEffects)
          | .ok data =>
            match env.prepareMessage session data with
            | .error e =>
              (.returned (some (.wrap "failed to prepare message to send err=" e)), noEffects)
            | .ok final =>
              (.returned (env.connSend conn final),
                { noEffects with connSends := [(conn, final)] })

/-- `SendMessage` (lines 155-207). The variable `err` is declared nil on line
156 and is assigned by `dht.Lookup` and by `GetConnection`. -/
def SendMessage (env : Collaborators) (peerPubKey : String) (protocol : String)
    (payload : Bytes) : Outcome × Effects :=
  match env.gossipPeer peerPubKey with
  | (some _, conn) => SendMessage.onConn env conn none protocol payload
  | (none, _) =>
    match env.dhtLookup peerPubKey with
    | .error err => (.returned (some err), noEffects)
    | .ok peer =>
      match env.getConnection peer.address peer.pubKey with
      | .error err => (.returned (some err), noEffects)
      | .ok conn => SendMessage.onConn env (some conn) none protocol payload

/-! ## Connection pool -/

/-- The `dialResult` struct (lines 12-15). -/
structure dialResult where
  conn : Option Connection
  err : Option Err
  deriving DecidableEq, Repr

/-- The `net.ConnectionSource` of a new connection. -/
inductive ConnectionSource where
  | Local
  | Remote
  deriving DecidableEq, Repr

/-- The `ConnectionPool` struct (lines 29-43) with the traces of what it did.
`connections`, `pending`, `shutdown` and `OnClose` (is the hook set) are the
fields of the struct; a sink is the identity of a `chan dialResult`.
`dialsStarted` lists the dial goroutines spawned so far, `dialsInFlight` those
of them that have not finished, `delivered` the sends on sinks and
`onCloseCalls` the calls of the hook, each in program order. -/
structure ConnectionPool where
  connections : List (String × Connection)
  pending : List (String × List Nat)
  shutdown : Bool
  OnClose : Bool
  nextChan : Nat
  dialsStarted : List (String × PublicKey)
  dialsInFlight : List (String × PublicKey)
  delivered : List (Nat × dialResult)
  onCloseCalls : List Connection
  deriving DecidableEq, Repr

/-- The pool made by `NewConnectionPool` (lines 46-62). -/
def NewConnectionPool : ConnectionPool :=
  { connections := [], pending := [], shutdown := false, OnClose := false, nextChan := 0,
    dialsStarted := [], dialsInFlight := [], delivered := [], onCloseCalls := [] }

/-- `handleDialResult` (lines 92-99): the loop sends the result on every sink
of `pending[rPub.String()]`, then the key is deleted. -/
def handleDialResult (cp : ConnectionPool) (rPub : PublicKey) (result : dialResult) :
    ConnectionPool :=
  let sinks := (mapGet cp.pending rPub.str).getD []
  { cp with
    delivered := sinks.foldl (fun trace p => trace ++ [(p, result)]) cp.delivered,
    pending := mapDelete cp.pending rPub.str }

/-- `handleNewConnection` (lines 101-121). -/
def handleNewConnection (cp : ConnectionPool) (rPub : PublicKey) (conn : Connection)
    (_source : ConnectionSource) : ConnectionPool :=
  let cp1 := { cp with connections := mapSet cp.connections rPub.str conn }
  let res : dialResult := { conn := some conn, err := none }
  handleDialResult cp1 rPub res

/-- `handleClosedConnection` (lines 123-136). -/
def handleClosedConnection (cp : ConnectionPool) (conn : Connection) : ConnectionPool :=
  let rPub := conn.remotePub.str
  let cp1 :=
    match mapGet cp.connections rPub with
    | some cur =>
      if cur.id = conn.id then { cp with connections := mapDelete cp.connections rPub } else cp
    | none => cp
  if cp1.OnClose then { cp1 with onCloseCalls := cp1.onCloseCalls ++ [conn] } else cp1

/-- Where a call of `GetConnection` stands after line 195: it has returned
(lines 159, 165), or it waits on its own sink (line 197). -/
inductive GetConnectionStep where
  | done (conn : Option Connection) (err : Option Err)
  | waiting (pendChan : Nat)
  deriving DecidableEq, Repr

/-- `GetConnection` up to the release of the locks (lines 155-195). The dial
goroutine of lines 174-190 is recorded as spawned; its body is `dialTask`. -/
def GetConnection (cp : ConnectionPool) (address : String) (remotePub : PublicKey) :
    ConnectionPool × GetConnectionStep :=
  if cp.shutdown then
    (cp, .done none (some (.other "ConnectionPool was shut down")))
  else
    match mapGet cp.connections remotePub.str with
    | some conn => (cp, .done (some conn) none)
    | none =>
      let found := (mapGet cp.pending remotePub.str).isSome
      let cp1 :=
        if !found then
          { cp with
            dialsStarted := cp.dialsStarted ++ [(address, remotePub)],
            dialsInFlight := cp.dialsInFlight ++ [(address, remotePub)] }
        else cp
      let pendChan := cp1.nextChan
      let cp2 :=
        { cp1 with
          nextChan := cp1.nextChan + 1,
          pending := mapSet cp1.pending remotePub.str
            ((mapGet cp1.pending remotePub.str).getD [] ++ [pendChan]) }
      (cp2, .waiting pendChan)

/-- The body of the dial goroutine (lines 182-189) from the moment `net.Dial`
has returned `r`. -/
def dialTask (cp : ConnectionPool) (address : String) (remotePub : PublicKey)
    (r : Except Err Connection) : ConnectionPool :=
  let cp1 :=
    match r with
    | .error err => handleDialResult cp remotePub { conn := none, err := some err }
    | .ok conn => handleNewConnection cp remotePub conn .Local
  { cp1 with dialsInFlight := cp1.dialsInFlight.erase (address, remotePub) }

/-- A run of `n` calls `GetConnection(address, remotePub)`, one after the
other, with no other pool event in between: the pool after them and where each
call stands. -/
def getConnectionCalls (cp : ConnectionPool) (address : String) (remotePub : PublicKey) :
    Nat → ConnectionPool × List GetConnectionStep
  | 0 => (cp, [])
  | n + 1 =>
    let r := GetConnection cp address remotePub
    let rest := getConnectionCalls r.1 address remotePub n
    (rest.1, r.2 :: rest.2)

/-! ## The checks of the inbound pipeline, as the specification lists them -/

/-- The eight checks of the inbound pipeline, in the order of the
specification (section 4.5, steps 1 to 8). -/
inductive InboundCheck where
  | outerDecode
  | drift
  | payload
  | session
  | decrypt
  | innerDecode
  | author
  | peerBinding
  deriving DecidableEq, Repr

/-- Position of a check in the pipeline. -/
def InboundCheck.order : InboundCheck → Nat
  | .outerDecode => 0
  | .drift => 1
  | .payload => 2
  | .session => 3
  | .decrypt => 4
  | .innerDecode => 5
  | .author => 6
  | .peerBinding => 7

/-- The error a failing check is reported with. -/
def InboundCheck.error : InboundCheck → Err
  | .outerDecode => .ErrBadFormat1
  | .drift => .ErrOutOfSync
  | .payload => .ErrNoPayload
  | .session => .ErrNoSession
  | .decrypt => .ErrFailDecrypt
  | .innerDecode => .ErrBadFormat2
  | .author => .ErrAuthAuthor
  | .peerBinding => .ErrNotFromPeer

/-- The decrypted payload of an event: the envelope decodes, the connection
has a session and the session decrypts the envelope payload. -/
def decryptedPayload (env : Collaborators) (msg : IncomingMessageEvent) : Option Bytes :=
  (env.unmarshalCommon msg.Message).bind fun c =>
    msg.Conn.session.bind fun session => env.decrypt session c.Payload

/-- The decoded `ProtocolMessage` of an event. -/
def decodedMessage (env : Collaborators) (msg : IncomingMessageEvent) : Option ProtocolMessage :=
  (decryptedPayload env msg).bind env.unmarshalProtocol

/-- Verdict of one check on an event, stated on the event alone (not on the
control flow of the dispatcher): `some true` the check passes, `some false` it
fails, `none` the data the check is about does not exist (the envelope for
the drift and payload checks, the decrypted payload for the inner decode, a
message with metadata for the author and peer-binding checks). -/
def checkVerdict (env : Collaborators) (msg : IncomingMessageEvent) :
    InboundCheck → Option Bool
  | .outerDecode => some (env.unmarshalCommon msg.Message).isSome
  | .drift => (env.unmarshalCommon msg.Message).map fun c => env.checkMessageDrift c.Timestamp
  | .payload => (env.unmarshalCommon msg.Message).map fun c => !c.Payload.isEmpty
  | .session => some msg.Conn.session.isSome
  | .decrypt =>
    (env.unmarshalCommon msg.Message).bind fun c =>
      msg.Conn.session.map fun session => (env.decrypt session c.Payload).isSome
  | .innerDecode => (decryptedPayload env msg).map fun d => (env.unmarshalProtocol d).isSome
  | .author =>
    (decodedMessage env msg).bind fun pm => pm.Metadata.map fun _ => (env.authAuthor pm).isNone
  | .peerBinding =>
    (decodedMessage env msg).bind fun pm =>
      pm.Metadata.map fun md => md.Gossip || decide (md.AuthPubKey = msg.Conn.remotePub.bytes)

/-- The eight checks, in pipeline order. -/
def InboundCheck.pipeline : List InboundCheck :=
  [.outerDecode, .drift, .payload, .session, .decrypt, .innerDecode, .author, .peerBinding]

/-- Every check up to and including the peer-binding check passes. -/
def allChecksPass (env : Collaborators) (msg : IncomingMessageEvent) : Bool :=
  InboundCheck.pipeline.all fun k => checkVerdict env msg k == some true

/-! ## Concrete inputs -/

/-- A toy wire format and toy collaborators, to run the dispatcher on explicit
inputs. Envelope: first byte the timestamp, the rest the payload. Protocol
message: gossip flag (2 stands for a message without metadata), author byte,
protocol byte, signature byte, then the payload. A signature is good when it
equals the author byte; a time stamp is in sync up to 100; a payload starting
with 255 does not decrypt; gossip of more than 5 bytes is a duplicate. -/
def sampleCollaborators : Collaborators :=
  { unmarshalCommon := fun b =>
      match b with
      | [] => none
      | t :: p => some { Timestamp := t, Payload := p },
    checkMessageDrift := fun t => decide (t ≤ 100),
    decrypt := fun _ b => if b.head? = some 255 then none else some b,
    unmarshalProtocol := fun b =>
      match b with
      | g :: a :: p :: sig :: rest =>
        if g = 2 then some { Metadata := none, Payload := rest }
        else some
          { Metadata := some
              { Protocol := if p = 1 then "ping" else "pong", AuthPubKey := [a],
                Timestamp := 0, Gossip := decide (g = 1), AuthorSign := [sig] },
            Payload := rest }
      | _ => none,
    authAuthor := fun pm =>
      match pm.Metadata with
      | some md => if md.AuthorSign = md.AuthPubKey then none else some (.other "bad signature")
      | none => some (.other "no metadata"),
    gossipBroadcast := fun b => if 5 < b.length then some (.other "old message") else none,
    gossipPeer := fun k =>
      if k = "neighbor" then
        (some { pubKey := { bytes := [7], str := "neighbor" }, address := "10.0.0.7:7513" },
         some { id := "c7", remotePub := { bytes := [7], str := "neighbor" },
                remoteAddr := "10.0.0.7:40000", remoteListenPort := 7513, session := none })
      else (none, none),
    dhtLookup := fun k =>
      if k = "far" then .ok { pubKey := { bytes := [8], str := "far" }, address := "10.0.0.8:7513" }
      else .error (.other "not found"),
    getConnection := fun address pub =>
      .ok { id := "c8", remotePub := pub, remoteAddr := address, remoteListenPort := 7513,
            session := none },
    newMetadata := fun protocol gossip =>
      { Protocol := protocol, AuthPubKey := [1], Timestamp := 0, Gossip := gossip,
        AuthorSign := [] },
    signMessage := fun pm => .ok pm,
    marshal := fun pm => .ok pm.Payload,
    prepareMessage := fun _ b => .ok b,
    connSend := fun _ _ => none }

/-- A connection from the peer with public key bytes `[7]`, session attached. -/
def sampleConn : Connection :=
  { id := "c1", remotePub := { bytes := [7], str := "peer7" }, remoteAddr := "10.0.0.7:40000",
    remoteListenPort := 7513, session := some { id := [1, 2, 3] } }

/-- A swarm with the protocol "ping" registered on channel 0. -/
def sampleSwarm : swarm :=
  (RegisterProtocol { protocolHandlers := [], nextChan := 0 } "ping").1

/-- The public key of the peer of `sampleConn`. -/
def sampleKey : PublicKey := { bytes := [7], str := "peer7" }

/-- A second connection from the same peer, with another connection id. -/
def sampleConn2 : Connection :=
  { id := "c2", remotePub := sampleKey, remoteAddr := "10.0.0.7:40001",
    remoteListenPort := 7513, session := some { id := [4, 5, 6] } }

/-- A pool with two callers waiting for `sampleKey` and one for another key. -/
def samplePool : ConnectionPool :=
  { NewConnectionPool with
    pending := [("peer7", [0, 1]), ("peer9", [2])],
    nextChan := 3,
    dialsStarted := [("10.0.0.7:7513", sampleKey)],
    dialsInFlight := [("10.0.0.7:7513", sampleKey)] }

/-! ## Swarm: dispatch of one event -/

/-- `processMessage` (lines 232-244). `shutdown` tells whether the shutdown
channel of the swarm is closed. The result is how the call ends, the effects of
the dispatcher and the connections `Close` was called on. -/
def processMessage (env : Collaborators) (s : swarm) (shutdown : Bool)
    (ime : IncomingMessageEvent) : Outcome × Effects × List Connection :=
  if shutdown then (.returned none, noEffects, [])
  else
    match onRemoteClientMessage env s ime with
    | (.returned (some _), e) => (.returned none, e, [ime.Conn])
    | (.returned none, e) => (.returned none, e, [])
    | (.panicked, e) => (.panicked, e, [])

/-! ## Session (`session.go`) -/

/-- The `NetworkSessionImpl` struct (lines 29-46); the two cipher modes are
represented by the IV they hold. -/
structure NetworkSessionImpl where
  id : Bytes
  keyE : Bytes
  keyM : Bytes
  pubKey : Bytes
  localNodeID : String
  remoteNodeID : String
  encrypterIV : Bytes
  decrypterIV : Bytes
  deriving DecidableEq, Repr

/-- How `NewNetworkSession` ends: with a session, with the error of
`aes.NewCipher`, or in the panic of `cipher.NewCBCEncrypter`. -/
inductive NewSessionOutcome where
  | ok (n : NetworkSessionImpl)
  | failed (err : Err)
  | panicked
  deriving DecidableEq, Repr

/-- `NewNetworkSession` (lines 135-159). `aes.NewCipher` (line 149) accepts
keys of 16, 24 and 32 bytes and returns an error otherwise;
`cipher.NewCBCEncrypter` (line 155) panics unless the IV, here the session id,
has the block size of AES, 16 bytes. -/
def NewNetworkSession (id keyE keyM pubKey : Bytes) (localNodeID remoteNodeID : String) :
    NewSessionOutcome :=
  if keyE.length = 16 ∨ keyE.length = 24 ∨ keyE.length = 32 then
    if id.length = 16 then
      .ok { id := id, keyE := keyE, keyM := keyM, pubKey := pubKey, localNodeID := localNodeID,
            remoteNodeID := remoteNodeID, encrypterIV := id, decrypterIV := id }
    else .panicked
  else .failed (.other "crypto/aes: invalid key size")

/-- `Encrypt` (lines 102-114): the body is `return in, nil`; the session is not
touched. The result is the session after the call, the output and the error. -/
def NetworkSessionImpl.Encrypt (n : NetworkSessionImpl) (input : Bytes) :
    NetworkSessionImpl × Bytes × Option Err :=
  (n, input, none)

/-- `Decrypt` (lines 117-132): the body is `return in, nil`. -/
def NetworkSessionImpl.Decrypt (n : NetworkSessionImpl) (input : Bytes) :
    NetworkSessionImpl × Bytes × Option Err :=
  (n, input, none)

/-- The session after one `Encrypt` followed by `Decrypt` of its output, for
each payload of the list in turn. -/
def encryptDecryptPairs (n : NetworkSessionImpl) : List Bytes → NetworkSessionImpl
  | [] => n
  | p :: rest =>
    let e := n.Encrypt p
    let d := e.1.Decrypt e.2.1
    encryptDecryptPairs d.1 rest

/-! ## Framed connection and transport (`conn.go`, `network.go`) -/

/-- `ErrClosedIncomingChannel` of `conn.go`. -/
def ErrClosedIncomingChannel : Err := .other "unexpected closed incoming channel"

/-- `ErrConnectionClosed` of `conn.go`. -/
def ErrConnectionClosed : Err := .other "connections was intentionally closed"

/-- The `pb.HandshakeData` fields the transport reads. -/
structure HandshakeData where
  NodePubKey : Bytes
  NetworkID : Int
  Port : Int
  deriving DecidableEq, Repr

/-- The fields of a `FormattedConnection` that the `Connection` interface reads
and sets. `remotePub = none` is a nil key: an accepted connection has none until
its handshake request arrives (`newConnection(netConn, n, formatter, nil, ..)`). -/
structure FormattedConnection where
  id : String
  remotePub : Option PublicKey
  remoteAddr : String
  remoteListenPort : Int
  session : Option NetworkSession
  deriving DecidableEq, Repr

/-- Where the goroutine `beginEventProcessing` of a connection stands. -/
inductive LoopStatus where
  | notStarted
  | running
  | exited (err : Err)
  | panicked
  deriving DecidableEq, Repr

/-- A `FormattedConnection` at run time: its fields, its event loop, its
`closeOnce` and `closeChan`, and what has been done with it so far.
`closePending` says that the send of `Close` on the unbuffered `closeChan`
waits for a receiver; `closeSends` counts the runs of the body of `closeOnce`;
`formatterCloses` counts `formatter.Close()`; `closingSends` counts the sends of
the connection on the closing-connections channel; `incoming` lists the frames
published as `IncomingMessageEvent`; `newRemoteSends` lists the sends on
new-remote-connection subscriber channels (channel and the connection as it is
at that moment); `framesOut` lists the frames handed to `Send`. -/
structure ConnRuntime where
  conn : FormattedConnection
  loop : LoopStatus
  closeOnceDone : Bool
  closePending : Bool
  closeSends : Nat
  formatterCloses : Nat
  closingSends : Nat
  incoming : List Bytes
  newRemoteSends : List (Nat × FormattedConnection)
  framesOut : List Bytes
  deriving DecidableEq, Repr

/-- `newConnection` (lines 82-98 of `conn.go`): no session, the loop not
started, `closeChan` made without buffer. -/
def newConnection (id : String) (remoteAddr : String) (remotePub : Option PublicKey) :
    ConnRuntime :=
  { conn := { id := id, remotePub := remotePub, remoteAddr := remoteAddr,
              remoteListenPort := 0, session := none },
    loop := .notStarted, closeOnceDone := false, closePending := false, closeSends := 0,
    formatterCloses := 0, closingSends := 0, incoming := [], newRemoteSends := [],
    framesOut := [] }

/-- The collaborators of the transport that are not part of the sources. -/
structure NetCollaborators where
  /-- `proto.Unmarshal` into a `pb.HandshakeData`. -/
  unmarshalHandshake : Bytes → Except Err HandshakeData
  /-- `crypto.NewPublicKey`. -/
  newPublicKey : Bytes → Except Err PublicKey
  /-- `ProcessHandshakeRequest` for the local node: response and session. -/
  processHandshakeRequest : PublicKey → HandshakeData → Except Err (HandshakeData × NetworkSession)
  /-- `proto.Marshal` of a `pb.HandshakeData`. -/
  marshalHandshake : HandshakeData → Except Err Bytes
  /-- `Send`, that is the formatter's `Out`. -/
  formatterOut : FormattedConnection → Bytes → Option Err
  /-- `dialer.Dial("tcp", address)`: the remote address of the socket. -/
  dialTCP : String → Except Err String
  /-- `crypto.UUIDString()`. -/
  uuid : String
  /-- `GenerateHandshakeRequestData` for the local node: request and session. -/
  generateHandshakeRequestData : PublicKey → Except Err (HandshakeData × NetworkSession)
  /-- `ProcessHandshakeResponse`. -/
  processHandshakeResponse : PublicKey → NetworkSession → HandshakeData → Option Err
  /-- `strconv.ParseInt(s, 10, 32)`. -/
  parseInt : String → Except Err Int

/-- The fields of the `Net` struct the handshake code reads; a subscriber
channel is a natural-number identity. -/
structure Net where
  isShuttingDown : Bool
  regNewRemoteConn : List Nat
  deriving DecidableEq, Repr

/-- `publishNewRemoteConnection` (lines 267-273): one send per subscriber
channel, in the order of the subscriptions. -/
def publishNewRemoteConnection (n : Net) (conn : FormattedConnection) :
    List (Nat × FormattedConnection) :=
  n.regNewRemoteConn.foldl (fun sends c => sends ++ [(c, conn)]) []

/-- What a call of `HandlePreSessionIncomingMessage` leaves: the connection,
the error returned, the frames sent and the sends on subscriber channels. -/
structure HandlerResult where
  conn : FormattedConnection
  err : Option Err
  framesOut : List Bytes
  newRemoteSends : List (Nat × FormattedConnection)
  deriving DecidableEq, Repr

/-- `HandlePreSessionIncomingMessage` (lines 276-314). -/
def HandlePreSessionIncomingMessage (env : NetCollaborators) (n : Net)
    (c : FormattedConnection) (message : Bytes) : HandlerResult :=
  let errMsg := "failed to handle handshake request"
  match env.unmarshalHandshake message with
  | .error err =>
    { conn := c, err := some (.wrap (errMsg ++ ". err: ") err), framesOut := [],
      newRemoteSends := [] }
  | .ok data =>
    let keyed : Except Err (FormattedConnection × PublicKey) :=
      match c.remotePub with
      | some rPub => .ok (c, rPub)
      | none =>
        match env.newPublicKey data.NodePubKey with
        | .error err => .error (.wrap (errMsg ++ ". err: ") err)
        | .ok rPub => .ok ({ c with remotePub := some rPub }, rPub)
    match keyed with
    | .error e => { conn := c, err := some e, framesOut := [], newRemoteSends := [] }
    | .ok (c1, rPub) =>
      match env.processHandshakeRequest rPub data with
      | .error err =>
        { conn := c1, err := some (.wrap (errMsg ++ ". here err: ") err), framesOut := [],
          newRemoteSends := [] }
      | .ok (respData, session) =>
        match env.marshalHandshake respData with
        | .error err =>
          { conn := c1, err := some (.wrap (errMsg ++ ". hereto err: ") err), framesOut := [],
            newRemoteSends := [] }
        | .ok payload =>
          match env.formatterOut c1 payload with
          | some err => { conn := c1, err := some err, framesOut := [], newRemoteSends := [] }
          | none =>
            let c2 := { c1 with session := some session }
            let c3 := { c2 with remoteListenPort := data.Port }
            { conn := c3, err := none, framesOut := [payload],
              newRemoteSends := publishNewRemoteConnection n c3 }

/-- `Close` (lines 163-167 of `conn.go`): the first call runs the body of
`closeOnce`, a send on `closeChan`; the send waits until the event loop
receives it. Later calls do nothing. -/
def FormattedConnection.Close (rt : ConnRuntime) : ConnRuntime :=
  if rt.closeOnceDone then rt
  else { rt with closeOnceDone := true, closePending := true, closeSends := rt.closeSends + 1 }

/-- `shutdown` (lines 169-173 of `conn.go`): the log line calls
`c.remotePub.String()`, a method call on a nil interface value when the key is
not set; then the formatter is closed and the connection is sent on the
closing-connections channel. -/
def FormattedConnection.shutdown (rt : ConnRuntime) (err : Err) : ConnRuntime :=
  match rt.conn.remotePub with
  | none => { rt with loop := .panicked }
  | some _ =>
    { rt with
      loop := .exited err,
      formatterCloses := rt.formatterCloses + 1,
      closingSends := rt.closingSends + 1 }

/-- What the `select` of the event loop can yield: a frame from the formatter,
the closed inbound channel, or the signal on `closeChan`. -/
inductive ConnEvent where
  | frame (msg : Bytes)
  | inClosed
  | closeSignal
  deriving DecidableEq, Repr

/-- One turn of the loop of `beginEventProcessing` (lines 181-205), followed by
`shutdown` (line 206) when the turn breaks the loop. A turn is taken only while
the loop runs, and the case `<-c.closeChan` only when a send waits there. -/
def loopTurn (env : NetCollaborators) (n : Net) (rt : ConnRuntime) (ev : ConnEvent) :
    ConnRuntime :=
  if rt.loop ≠ .running then rt
  else
    match ev with
    | .inClosed => FormattedConnection.shutdown rt ErrClosedIncomingChannel
    | .frame msg =>
      match rt.conn.session with
      | none =>
        let r := HandlePreSessionIncomingMessage env n rt.conn msg
        let rt1 :=
          { rt with
            conn := r.conn,
            framesOut := rt.framesOut ++ r.framesOut,
            newRemoteSends := rt.newRemoteSends ++ r.newRemoteSends }
        match r.err with
        | some err => FormattedConnection.shutdown rt1 err
        | none => rt1
      | some _ => { rt with incoming := rt.incoming ++ [msg] }
    | .closeSignal =>
      if rt.closePending then
        FormattedConnection.shutdown { rt with closePending := false } ErrConnectionClosed
      else rt

/-- `beginEventProcessing` (lines 177-207 of `conn.go`) on the events its
`select` yields, in order. -/
def beginEventProcessing (env : NetCollaborators) (n : Net) (rt : ConnRuntime)
    (events : List ConnEvent) : ConnRuntime :=
  events.foldl (loopTurn env n) { rt with loop := .running }

/-- Something that happens to a connection whose loop runs: a call of `Close`
from some goroutine, or a turn of the event loop. -/
inductive ConnAction where
  | close
  | event (ev : ConnEvent)
  deriving DecidableEq, Repr

/-- The connection after one action. -/
def connStep (env : NetCollaborators) (n : Net) (rt : ConnRuntime) : ConnAction → ConnRuntime
  | .close => FormattedConnection.Close rt
  | .event ev => loopTurn env n rt ev

/-- The connection after a schedule of actions. -/
def connRun (env : NetCollaborators) (n : Net) (rt : ConnRuntime)
    (actions : List ConnAction) : ConnRuntime :=
  actions.foldl (connStep env n) rt

/-- What the `select` of lines 168-178 of `network.go` yields. -/
inductive ResponseWait where
  | frame (msg : Bytes)
  | closed
  | timeout
  deriving DecidableEq, Repr

/-- How a dial ends: with a connection, with an error, parked for ever in
`conn.Close()` (nothing receives from `closeChan`), or in a panic. -/
inductive DialOutcome where
  | ok (rt : ConnRuntime)
  | failed (err : Err)
  | blockedInClose (rt : ConnRuntime)
  | panicked
  deriving DecidableEq, Repr

/-- The steps `conn.Close(); return nil, err` of `createSecuredConnection`:
the return is reached only if the send of `Close` on `closeChan` is received.
The only receiver is the event loop of the connection. -/
def closeAndFail (rt : ConnRuntime) (err : Err) : DialOutcome :=
  let rt1 := FormattedConnection.Close rt
  if rt1.closePending && decide (rt1.loop ≠ .running) then .blockedInClose rt1
  else .failed err

/-- `createConnection` (lines 118-139 of `network.go`). -/
def createConnection (env : NetCollaborators) (n : Net) (address : String)
    (remotePub : PublicKey) : Except Err ConnRuntime :=
  if n.isShuttingDown then
    .error (.other "can't dial because the connection is shutting down")
  else
    match env.dialTCP address with
    | .error err => .error err
    | .ok remoteAddr => .ok (newConnection env.uuid remoteAddr (some remotePub))

/-- `createSecuredConnection` (lines 141-203 of `network.go`); `response` is
what the wait for the handshake response yields. -/
def createSecuredConnection (env : NetCollaborators) (n : Net) (address : String)
    (remotePublicKey : PublicKey) (response : ResponseWait) : DialOutcome :=
  let errMsg := "failed to establish secured connection."
  match createConnection env n address remotePublicKey with
  | .error err => .failed err
  | .ok conn =>
    match env.generateHandshakeRequestData remotePublicKey with
    | .error err => closeAndFail conn (.wrap (errMsg ++ " err: ") err)
    | .ok (data, session) =>
      match env.marshalHandshake data with
      | .error err => closeAndFail conn (.wrap (errMsg ++ " err: ") err)
      | .ok payload =>
        match env.formatterOut conn.conn payload with
        | some err => closeAndFail conn err
        | none =>
          let conn := { conn with framesOut := conn.framesOut ++ [payload] }
          match response with
          | .closed =>
            closeAndFail conn (.other (errMsg ++ " err: incoming channel got closed"))
          | .timeout => closeAndFail conn (.other (errMsg ++ " err: HS response timed-out"))
          | .frame msg =>
            match env.unmarshalHandshake msg with
            | .error err => closeAndFail conn (.wrap (errMsg ++ " err: ") err)
            | .ok respData =>
              match env.processHandshakeResponse remotePublicKey session respData with
              | some err => closeAndFail conn (.wrap (errMsg ++ " err: ") err)
              | none =>
                let conn := { conn with conn := { conn.conn with session := some session } }
                match (stringsSplit address ':').get? 1 with
                | none => .panicked
                | some portText =>
                  match env.parseInt portText with
                  | .error err => closeAndFail conn (.wrap "can't parse address port err=" err)
                  | .ok port =>
                    .ok { conn with conn := { conn.conn with remoteListenPort := port } }

/-- `Dial` (lines 209-216 of `network.go`): on success the event loop of the
connection is started. -/
def Dial (env : NetCollaborators) (n : Net) (address : String) (remotePublicKey : PublicKey)
    (response : ResponseWait) : DialOutcome :=
  match createSecuredConnection env n address remotePublicKey response with
  | .ok conn => .ok { conn with loop := .running }
  | .failed err => .failed (.wrap "failed to Dail. err: " err)
  | .blockedInClose rt => .blockedInClose rt
  | .panicked => .panicked

/-! ## Connection pool: shutdown and runs of operations -/

/-- `closeConnections` (lines 83-90): the connections `Close` is called on. -/
def closeConnections (cp : ConnectionPool) : List Connection :=
  cp.connections.foldl (fun calls kc => calls ++ [kc.2]) []

/-- How a call of `Shutdown` of the pool goes on after line 75. -/
inductive ShutdownOutcome where
  | alreadyShutDown
  | waitingForDials
  | closed (calls : List Connection)
  deriving DecidableEq, Repr

/-- An operation on the pool: a registration `GetConnection`, the end of a dial
goroutine with the result of `net.Dial`, `handleNewConnection`,
`handleDialResult`, `handleClosedConnection`. -/
inductive PoolOp where
  | getConnection (address : String) (remotePub : PublicKey)
  | dialDone (address : String) (remotePub : PublicKey) (r : Except Err Connection)
  | newConnection (rPub : PublicKey) (conn : Connection) (source : ConnectionSource)
  | dialResult (rPub : PublicKey) (result : dialResult)
  | closedConnection (conn : Connection)

/-- The pool after one operation. A dial goroutine can end only if it is in
flight. -/
def applyOp (cp : ConnectionPool) : PoolOp → ConnectionPool
  | .getConnection address remotePub => (GetConnection cp address remotePub).1
  | .dialDone address remotePub r =>
    if (address, remotePub) ∈ cp.dialsInFlight then dialTask cp address remotePub r else cp
  | .newConnection rPub conn source => handleNewConnection cp rPub conn source
  | .dialResult rPub result => handleDialResult cp rPub result
  | .closedConnection conn => handleClosedConnection cp conn

/-- The pool after a run of operations. -/
def runOps (cp : ConnectionPool) (ops : List PoolOp) : ConnectionPool :=
  ops.foldl applyOp cp

/-- The number of dial goroutines that end in a run of pool operations. -/
def dialEnds (cp : ConnectionPool) : List PoolOp → Nat
  | [] => 0
  | op :: rest =>
    (match op with
      | .dialDone address remotePub _ =>
        if (address, remotePub) ∈ cp.dialsInFlight then 1 else 0
      | _ => 0) + dialEnds (applyOp cp op) rest

/-- `Shutdown` of the pool (lines 67-81). `waitCount` is the value of
`dialWait` when the call reaches `Wait()` on line 77: the dial goroutines that
have run `dialWait.Add(1)` (line 182) and not yet `dialWait.Done()` (line 189);
a goroutine that is spawned but has not reached line 182 is not counted.
`during` is what the other goroutines do to the pool from line 75 on, until the
call goes on. `Wait()` is over when `waitCount` dial goroutines have ended;
then the event loop is told to stop (line 78) and `closeConnections` runs on
the pool as it then is (line 80). -/
def Shutdown (cp : ConnectionPool) (waitCount : Nat) (during : List PoolOp) :
    ConnectionPool × ShutdownOutcome :=
  if cp.shutdown then (cp, .alreadyShutDown)
  else
    let cp1 := { cp with shutdown := true }
    let cp2 := runOps cp1 during
    if dialEnds cp1 during < waitCount then (cp2, .waitingForDials)
    else (cp2, .closed (closeConnections cp2))

/-- The connection a successful `Dial` returns, as the pool sees it through the
`net.Connection` interface; the remote key of a dialled connection is the key
it was dialled with. -/
def asConnection (c : FormattedConnection) (remotePub : PublicKey) : Connection :=
  { id := c.id, remotePub := c.remotePub.getD remotePub, remoteAddr := c.remoteAddr,
    remoteListenPort := c.remoteListenPort, session := c.session }

/-- The dial goroutine of `GetConnection` (lines 174-190) with the transport of
`network.go` as `cp.net`: `Dial` is called (line 183) and its result handed to
`handleDialResult` or `handleNewConnection` (lines 184-188). When `Dial` does
not return, those lines are not reached and the pool stays as it is. -/
def dialGoroutine (env : NetCollaborators) (n : Net) (cp : ConnectionPool)
    (address : String) (remotePub : PublicKey) (response : ResponseWait) : ConnectionPool :=
  match Dial env n address remotePub response with
  | .ok rt => dialTask cp address remotePub (.ok (asConnection rt.conn remotePub))
  | .failed err => dialTask cp address remotePub (.error err)
  | .blockedInClose _ => cp
  | .panicked => cp

/-! ## Concrete inputs for the transport and the session -/

/-- The session `NewNetworkSession` makes from an id of 16 bytes and a key of
16 bytes. -/
def sampleSession : NetworkSessionImpl :=
  { id := List.replicate 16 3, keyE := List.replicate 16 1, keyM := [2], pubKey := [3],
    localNodeID := "local", remoteNodeID := "peer7", encrypterIV := List.replicate 16 3,
    decrypterIV := List.replicate 16 3 }

/-- Toy collaborators of the transport. A handshake frame is the key byte
followed by the port; only the key byte 7 makes a public key; only network 1 is
accepted; only "10.0.0.7:7513" can be dialled. -/
def sampleNetCollaborators : NetCollaborators :=
  { unmarshalHandshake := fun b =>
      match b with
      | [k, port] => .ok { NodePubKey := [k], NetworkID := 1, Port := port }
      | _ => .error (.other "bad handshake frame"),
    newPublicKey := fun b =>
      if b = [7] then .ok { bytes := [7], str := "peer7" } else .error (.other "bad key"),
    processHandshakeRequest := fun _ d =>
      if d.NetworkID = 1 then .ok (d, { id := [9] }) else .error (.other "wrong network"),
    marshalHandshake := fun d => .ok (d.NodePubKey ++ [d.Port.toNat]),
    formatterOut := fun _ _ => none,
    dialTCP := fun a =>
      if a = "10.0.0.7:7513" then .ok a else .error (.other "connection refused"),
    uuid := "u1",
    generateHandshakeRequestData := fun _ =>
      .ok ({ NodePubKey := [1], NetworkID := 1, Port := 7001 }, { id := [9] }),
    processHandshakeResponse := fun _ _ _ => none,
    parseInt := fun s => if s = "7513" then .ok 7513 else .error (.other "not a port") }

/-- A transport with two subscribers to new remote connections. -/
def sampleNet : Net := { isShuttingDown := false, regNewRemoteConn := [0, 1] }

/-- A connection just accepted: no remote key, no session. -/
def acceptedConn : ConnRuntime := newConnection "a1" "10.0.0.9:51000" none

/-- A connection made by a dial, before its event loop is started. -/
def dialledConn : ConnRuntime := newConnection "u1" "10.0.0.7:7513" (some sampleKey)

/-! ## Connection pool: lookup under the read lock -/

/-- `GetConnectionIfExist` (lines 139-152). `readers` is the number of read
locks held on `connMutex` when the call starts; the result is what the call
returns and the number of read locks held when it returns. `RLock` adds one,
`RUnlock` takes one away. -/
def GetConnectionIfExist (cp : ConnectionPool) (readers : Nat) (remotePub : String) :
    (Option Connection × Option Err) × Nat :=
  let locked := readers + 1
  if cp.shutdown then
    ((none, some (.other "ConnectionPool was shut down")), locked - 1)
  else
    match mapGet cp.connections remotePub with
    | some conn => ((some conn, none), locked - 1)
    | none => ((none, some (.other "there is no connection with this key")), locked)

/-! ## Swarm: start and shutdown -/

/-- The part of the `swarm` struct and of its network that `Start` and
`Shutdown` touch: the `started` flag, whether the channel `shutdown` is closed,
the network, and the number of calls of `tcpListener.Close()`. -/
structure SwarmLifecycle where
  started : Nat
  shutdownClosed : Bool
  network : Net
  listenerCloses : Nat
  deriving DecidableEq, Repr

/-- `shutdownInternal` (lines 226-229): it calls `Shutdown` of the network
(lines 219-222 of `network.go`), which sets `isShuttingDown` and closes the
listener. -/
def swarm.shutdownInternal (l : SwarmLifecycle) : SwarmLifecycle :=
  { l with
    network := { l.network with isShuttingDown := true },
    listenerCloses := l.listenerCloses + 1 }

/-- `Shutdown` of the swarm (lines 219-223): `close(s.shutdown)` panics when
the channel is already closed; the receive from the closed channel returns at
once; then `shutdownInternal`. -/
def swarm.Shutdown (l : SwarmLifecycle) : Outcome × SwarmLifecycle :=
  if l.shutdownClosed then (.panicked, l)
  else (.returned none, swarm.shutdownInternal { l with shutdownClosed := true })

/-- `Start` (lines 109-138): `bootstrap` is `config.SwarmConfig.Bootstrap` and
`bootstrapResult` what `dht.Bootstrap()` returns. -/
def swarm.Start (bootstrap : Bool) (bootstrapResult : Option Err) (l : SwarmLifecycle) :
    Outcome × SwarmLifecycle :=
  if l.started = 1 then (.returned (some (.other "swarm already running")), l)
  else
    let l1 := { l with started := 1 }
    if bootstrap then
      match bootstrapResult with
      | some err =>
        match swarm.Shutdown l1 with
        | (.panicked, l2) => (.panicked, l2)
        | (.returned _, l2) => (.returned (some err), l2)
      | none => (.returned none, l1)
    else (.returned none, l1)

/-- One tick of `checkTimeDrifts` (lines 282-288): `driftResult` is the error
of `timesync.CheckSystemClockDrift()`. -/
def swarm.checkTimeDriftsTick (driftResult : Option Err) (l : SwarmLifecycle) :
    Outcome × SwarmLifecycle :=
  match driftResult with
  | some _ => swarm.Shutdown l
  | none => (.returned none, l)

/-- The swarm as `newSwarm` leaves it: not started, the channel `shutdown`
open. -/
def sampleLifecycle : SwarmLifecycle :=
  { started := 0, shutdownClosed := false, network := sampleNet, listenerCloses := 0 }

/-! ## Go maps -/

theorem mapGet_mapDelete_self {α : Type} (m : List (String × α)) (k : String) :
    mapGet (mapDelete m k) k = none := by
  induction m with
  | nil => rfl
  | cons p rest ih =>
    obtain ⟨k', v⟩ := p
    by_cases h : k' = k
    · simp [mapDelete, h, ih]
    · simp [mapDelete, mapGet, h, ih]

theorem mapGet_mapDelete_ne {α : Type} (m : List (String × α)) (k k' : String) (h : k' ≠ k) :
    mapGet (mapDelete m k) k' = mapGet m k' := by
  induction m with
  | nil => rfl
  | cons p rest ih =>
    obtain ⟨k₀, v⟩ := p
    by_cases h0 : k₀ = k
    · have h1 : ¬ k₀ = k' := fun e => h (e.symm.trans h0)
      simp only [mapDelete, mapGet, h0, h1, if_true, if_false, ih]
      rw [if_neg (fun e => h e.symm)]
    · by_cases h1 : k₀ = k'
      · subst h1
        simp only [mapDelete, h0, if_false, mapGet, if_true]
      · simp only [mapDelete, h0, if_false, mapGet, h1, ih]

theorem mapDelete_of_absent {α : Type} (m : List (String × α)) (k : String)
    (h : mapGet m k = none) : mapDelete m k = m := by
  induction m with
  | nil => rfl
  | cons p rest ih =>
    obtain ⟨k', v⟩ := p
    by_cases h0 : k' = k
    · simp [mapGet, h0] at h
    · simp only [mapGet, h0, if_false] at h
      simp [mapDelete, h0, ih h]

theorem mapGet_mapSet_self {α : Type} (m : List (String × α)) (k : String) (v : α) :
    mapGet (mapSet m k v) k = some v := by
  simp [mapSet, mapGet]

theorem mapGet_mapSet_ne {α : Type} (m : List (String × α)) (k k' : String) (v : α)
    (h : k' ≠ k) : mapGet (mapSet m k v) k' = mapGet m k' := by
  have h' : ¬ k = k' := fun e => h e.symm
  simp [mapSet, mapGet, h', mapGet_mapDelete_ne m k k' h]

/-- The delivery loop of `handleDialResult` appends one send per sink, in the
order of the sinks. -/
theorem deliver_loop (sinks : List Nat) (result : dialResult)
    (trace : List (Nat × dialResult)) :
    sinks.foldl (fun trace p => trace ++ [(p, result)]) trace =
      trace ++ sinks.map (fun p => (p, result)) := by
  induction sinks generalizing trace with
  | nil => simp
  | cons p rest ih => simp [List.foldl, ih]

/-- The dispatcher on an event that passes the checks up to the peer binding:
what remains is lines 376-403. -/
theorem onRemoteClientMessage_of_checked (env : Collaborators) (s : swarm)
    (msg : IncomingMessageEvent) (c : CommonMessageData) (session : NetworkSession)
    (decPayload : Bytes) (pm : ProtocolMessage) (md : Metadata)
    (h1 : env.unmarshalCommon msg.Message = some c)
    (h2 : env.checkMessageDrift c.Timestamp = true)
    (h3 : c.Payload ≠ [])
    (h4 : msg.Conn.session = some session)
    (h5 : env.decrypt session c.Payload = some decPayload)
    (h6 : env.unmarshalProtocol decPayload = some pm)
    (h6' : pm.Metadata = some md)
    (h7 : env.authAuthor pm = none)
    (h8 : md.Gossip = true ∨ md.AuthPubKey = msg.Conn.remotePub.bytes) :
    onRemoteClientMessage env s msg =
      if md.Gossip = true ∧ (env.gossipBroadcast decPayload).isSome then
        (.returned none,
          { noEffects with dhtUpdates := [remoteNodeOf msg.Conn], broadcasts := [decPayload] })
      else
        match mapGet s.protocolHandlers md.Protocol with
        | none =>
          (.returned (some .ErrNoProtocol),
            { noEffects with
              dhtUpdates := [remoteNodeOf msg.Conn],
              broadcasts := if md.Gossip then [decPayload] else [] })
        | some msgchan =>
          (.returned none,
            { noEffects with
              dhtUpdates := [remoteNodeOf msg.Conn],
              broadcasts := if md.Gossip then [decPayload] else [],
              handlerSends := [(msgchan, ⟨remoteNodeOf msg.Conn, pm.Payload⟩)] }) := by
  have h3' : ¬ c.Payload.length = 0 := by
    intro h; exact h3 (List.length_eq_zero.mp h)
  have h8' : (!md.Gossip && !(md.AuthPubKey == msg.Conn.remotePub.bytes)) = false := by
    rcases h8 with h | h
    · simp [h]
    · simp [h]
  unfold onRemoteClientMessage
  simp only [h1, h2, h3', h4, h5, h6, h6', h7, h8', Bool.not_true, Bool.false_eq_true,
    if_false]
  cases hg : md.Gossip <;> cases hb : env.gossipBroadcast decPayload <;>
    cases hm : mapGet s.protocolHandlers md.Protocol <;> simp [noEffects]

/-- The three ways a dispatcher call can go: a check fails after all earlier
ones passed and its error is returned without any effect; or the message has
no metadata and the call panics; or every check passes. -/
theorem onRemoteClientMessage_cases (env : Collaborators) (s : swarm)
    (msg : IncomingMessageEvent) :
    (∃ k : InboundCheck, checkVerdict env msg k = some false ∧
        (∀ j : InboundCheck, j.order < k.order → checkVerdict env msg j = some true) ∧
        onRemoteClientMessage env s msg = (.returned (some k.error), noEffects)) ∨
    (∃ pm, decodedMessage env msg = some pm ∧ pm.Metadata = none ∧
        (∀ j : InboundCheck, j.order < 6 → checkVerdict env msg j = some true) ∧
        onRemoteClientMessage env s msg = (.panicked, noEffects)) ∨
    (∃ c session decPayload pm md,
        env.unmarshalCommon msg.Message = some c ∧
        env.checkMessageDrift c.Timestamp = true ∧
        c.Payload ≠ [] ∧
        msg.Conn.session = some session ∧
        env.decrypt session c.Payload = some decPayload ∧
        env.unmarshalProtocol decPayload = some pm ∧
        pm.Metadata = some md ∧
        env.authAuthor pm = none ∧
        (md.Gossip = true ∨ md.AuthPubKey = msg.Conn.remotePub.bytes)) := by
  cases h1 : env.unmarshalCommon msg.Message with
  | none =>
    refine Or.inl ⟨.outerDecode, by simp [checkVerdict, h1], ?_, ?_⟩
    · intro j hj
      cases j
      all_goals simp [InboundCheck.order] at hj
    · simp [onRemoteClientMessage, h1, InboundCheck.error]
  | some c =>
  cases h2 : env.checkMessageDrift c.Timestamp with
  | false =>
    refine Or.inl ⟨.drift, by simp [checkVerdict, h1, h2], ?_, ?_⟩
    · intro j hj
      cases j <;> simp [InboundCheck.order] at hj
      simp [checkVerdict, h1]
    · simp [onRemoteClientMessage, h1, h2, InboundCheck.error]
  | true =>
  by_cases h3 : c.Payload = []
  · refine Or.inl ⟨.payload, by simp [checkVerdict, h1, h3], ?_, ?_⟩
    · intro j hj; cases j <;> simp [InboundCheck.order] at hj <;> simp [checkVerdict, h1, h2]
    · simp [onRemoteClientMessage, h1, h2, h3, InboundCheck.error]
  have h3' : ¬ c.Payload.length = 0 := fun h => h3 (List.length_eq_zero.mp h)
  cases h4 : msg.Conn.session with
  | none =>
    refine Or.inl ⟨.session, by simp [checkVerdict, h4], ?_, ?_⟩
    · intro j hj
      cases j <;> simp [InboundCheck.order] at hj <;> simp [checkVerdict, h1, h2, h3]
    · simp [onRemoteClientMessage, h1, h2, h3', h4, InboundCheck.error]
  | some session =>
  cases h5 : env.decrypt session c.Payload with
  | none =>
    refine Or.inl ⟨.decrypt, by simp [checkVerdict, h1, h4, h5], ?_, ?_⟩
    · intro j hj
      cases j <;> simp [InboundCheck.order] at hj <;> simp [checkVerdict, h1, h2, h3, h4]
    · simp [onRemoteClientMessage, h1, h2, h3', h4, h5, InboundCheck.error]
  | some decPayload =>
  have hd : decryptedPayload env msg = some decPayload := by
    simp [decryptedPayload, h1, h4, h5]
  cases h6 : env.unmarshalProtocol decPayload with
  | none =>
    refine Or.inl ⟨.innerDecode, by simp [checkVerdict, hd, h6], ?_, ?_⟩
    · intro j hj
      cases j <;> simp [InboundCheck.order] at hj <;> simp [checkVerdict, h1, h2, h3, h4, h5]
    · simp [onRemoteClientMessage, h1, h2, h3', h4, h5, h6, InboundCheck.error]
  | some pm =>
  have hm : decodedMessage env msg = some pm := by simp [decodedMessage, hd, h6]
  cases h6' : pm.Metadata with
  | none =>
    refine Or.inr (Or.inl ⟨pm, hm, h6', ?_, by
      simp [onRemoteClientMessage, h1, h2, h3', h4, h5, h6, h6']⟩)
    intro j hj
    cases j <;> simp [InboundCheck.order] at hj <;>
      simp [checkVerdict, h1, h2, h3, h4, h5, hd, h6]
  | some md =>
  cases h7 : env.authAuthor pm with
  | some e =>
    refine Or.inl ⟨.author, by simp [checkVerdict, hm, h6', h7], ?_, ?_⟩
    · intro j hj
      cases j <;> simp [InboundCheck.order] at hj <;>
        simp [checkVerdict, h1, h2, h3, h4, h5, hd, h6]
    · simp [onRemoteClientMessage, h1, h2, h3', h4, h5, h6, h6', h7, InboundCheck.error]
  | none =>
  by_cases h8 : md.Gossip = true ∨ md.AuthPubKey = msg.Conn.remotePub.bytes
  · exact Or.inr (Or.inr ⟨c, session, decPayload, pm, md, rfl, h2, h3, rfl, h5, h6, h6', h7, h8⟩)
  · have hg : md.Gossip = false := by
      cases hgg : md.Gossip
      · rfl
      · exact absurd (Or.inl hgg) h8
    have ha : ¬ md.AuthPubKey = msg.Conn.remotePub.bytes := fun h => h8 (Or.inr h)
    refine Or.inl ⟨.peerBinding, by simp [checkVerdict, hm, h6', hg, ha], ?_, ?_⟩
    · intro j hj
      cases j <;> simp [InboundCheck.order] at hj <;>
        simp [checkVerdict, h1, h2, h3, h4, h5, hd, h6, hm, h6', h7]
    · simp [onRemoteClientMessage, h1, h2, h3', h4, h5, h6, h6', h7, hg, ha, InboundCheck.error]

/-! ## Swarm dispatcher: the claims -/

/-- All checks pass exactly when every stage of the pipeline yields its data
and the author and peer-binding tests succeed on it. -/
theorem allChecksPass_iff (env : Collaborators) (msg : IncomingMessageEvent) :
    allChecksPass env msg = true ↔
      ∃ c session decPayload pm md,
        env.unmarshalCommon msg.Message = some c ∧
        env.checkMessageDrift c.Timestamp = true ∧
        c.Payload ≠ [] ∧
        msg.Conn.session = some session ∧
        env.decrypt session c.Payload = some decPayload ∧
        env.unmarshalProtocol decPayload = some pm ∧
        pm.Metadata = some md ∧
        env.authAuthor pm = none ∧
        (md.Gossip = true ∨ md.AuthPubKey = msg.Conn.remotePub.bytes) := by
  constructor
  · intro h
    have hall : ∀ k : InboundCheck, checkVerdict env msg k = some true := by
      intro k
      cases k <;> simp_all [allChecksPass, InboundCheck.pipeline]
    rcases onRemoteClientMessage_cases env { protocolHandlers := [], nextChan := 0 } msg with
      ⟨k, hk, -, -⟩ | ⟨pm, hm, hmd, -, -⟩ | h3
    · rw [hall k] at hk
      simp at hk
    · have := hall .author
      simp [checkVerdict, hm, hmd] at this
    · exact h3
  · rintro ⟨c, session, decPayload, pm, md, h1, h2, h3, h4, h5, h6, h6', h7, h8⟩
    have hd : decryptedPayload env msg = some decPayload := by
      simp [decryptedPayload, h1, h4, h5]
    have hm : decodedMessage env msg = some pm := by simp [decodedMessage, hd, h6]
    have h8' : (md.Gossip || decide (md.AuthPubKey = msg.Conn.remotePub.bytes)) = true := by
      rcases h8 with h | h <;> simp [h]
    simp [allChecksPass, InboundCheck.pipeline, checkVerdict, h1, h2, h3, h4, h5, hd, h6, hm,
      h6', h7, h8']

/-- C1. Whenever `onRemoteClientMessage` places a message on a protocol handler
channel, the decoded `ProtocolMessage` of the event has metadata with
`Gossip == true` or with `AuthPubKey` equal to the bytes of the remote public
key of the connection the event came on. -/
theorem onRemoteClientMessage_delivery_gossip_or_from_peer (env : Collaborators) (s : swarm)
    (msg : IncomingMessageEvent) (ch : Nat) (m : protocolMessage)
    (h : (ch, m) ∈ (onRemoteClientMessage env s msg).2.handlerSends) :
    ∃ pm md, decodedMessage env msg = some pm ∧ pm.Metadata = some md ∧
      (md.Gossip = true ∨ md.AuthPubKey = msg.Conn.remotePub.bytes) := by
  rcases onRemoteClientMessage_cases env s msg with
    ⟨k, -, -, hr⟩ | ⟨pm, -, -, -, hr⟩ | ⟨c, session, decPayload, pm, md, h1, -, -, h4, h5, h6, h6', -, h8⟩
  · rw [hr] at h
    simp [noEffects] at h
  · rw [hr] at h
    simp [noEffects] at h
  · refine ⟨pm, md, ?_, h6', h8⟩
    simp [decodedMessage, decryptedPayload, h1, h4, h5, h6]

/-- Witness of C1: the sample event is delivered on channel 0 and its author
is the peer. -/
theorem onRemoteClientMessage_delivery_gossip_or_from_peer_witness :
    (0, ({ sender := { pubKey := sampleKey, address := "10.0.0.7:7513" }, data := [42, 43] } :
        protocolMessage)) ∈
      (onRemoteClientMessage sampleCollaborators sampleSwarm
        { Conn := sampleConn, Message := [5, 0, 7, 1, 7, 42, 43] }).2.handlerSends ∧
    ∃ pm md,
      decodedMessage sampleCollaborators
        { Conn := sampleConn, Message := [5, 0, 7, 1, 7, 42, 43] } = some pm ∧
      pm.Metadata = some md ∧ (md.Gossip = true ∨ md.AuthPubKey = sampleConn.remotePub.bytes) :=
  ⟨by decide,
    onRemoteClientMessage_delivery_gossip_or_from_peer sampleCollaborators sampleSwarm
      { Conn := sampleConn, Message := [5, 0, 7, 1, 7, 42, 43] } 0
      { sender := { pubKey := sampleKey, address := "10.0.0.7:7513" }, data := [42, 43] }
      (by decide)⟩

/-- C2. An event that passes all checks, is not gossip and names a registered
protocol: `onRemoteClientMessage` returns nil and sends exactly one message, on
the channel of that protocol; its sender is the node made of the connection's
remote public key and of the host part of the remote address, a colon and the
remote listen port, and its data is the payload of the `ProtocolMessage`.
`RegisterProtocol` is what puts a channel under a protocol name. -/
theorem onRemoteClientMessage_routes_to_registered (env : Collaborators) (s : swarm)
    (msg : IncomingMessageEvent) (pm : ProtocolMessage) (md : Metadata) (ch : Nat)
    (hpass : allChecksPass env msg = true)
    (hpm : decodedMessage env msg = some pm)
    (hmd : pm.Metadata = some md)
    (hng : md.Gossip = false)
    (hreg : mapGet s.protocolHandlers md.Protocol = some ch) :
    (onRemoteClientMessage env s msg).1 = .returned none ∧
    (onRemoteClientMessage env s msg).2.handlerSends =
      [(ch,
        { sender :=
            { pubKey := msg.Conn.remotePub,
              address := (stringsSplit msg.Conn.remoteAddr ':').headD "" ++ ":" ++
                toString msg.Conn.remoteListenPort },
          data := pm.Payload })] ∧
    ∀ (s₀ : swarm) (name : String),
      mapGet (RegisterProtocol s₀ name).1.protocolHandlers name =
        some (RegisterProtocol s₀ name).2 := by
  obtain ⟨c, session, decPayload, pm', md', h1, h2, h3, h4, h5, h6, h6', h7, h8⟩ :=
    (allChecksPass_iff env msg).mp hpass
  have hm : decodedMessage env msg = some pm' := by
    simp [decodedMessage, decryptedPayload, h1, h4, h5, h6]
  have e1 : pm' = pm := by
    rw [hm] at hpm
    exact Option.some.inj hpm
  subst e1
  have e2 : md' = md := by
    rw [h6'] at hmd
    exact Option.some.inj hmd
  subst e2
  have hr := onRemoteClientMessage_of_checked env s msg c session decPayload pm' md' h1 h2 h3
    h4 h5 h6 h6' h7 h8
  rw [hr]
  refine ⟨?_, ?_, ?_⟩
  · simp [hng, hreg]
  · simp [hng, hreg, remoteNodeOf]
  · intro s₀ name
    exact mapGet_mapSet_self _ _ _

/-- Witness of C2: the sample event reaches channel 0, which `RegisterProtocol`
made for "ping". -/
theorem onRemoteClientMessage_routes_to_registered_witness :
    (onRemoteClientMessage sampleCollaborators sampleSwarm
        { Conn := sampleConn, Message := [5, 0, 7, 1, 7, 42, 43] }).1 = .returned none ∧
    (onRemoteClientMessage sampleCollaborators sampleSwarm
        { Conn := sampleConn, Message := [5, 0, 7, 1, 7, 42, 43] }).2.handlerSends =
      [(0, { sender := { pubKey := sampleKey, address := "10.0.0.7:7513" }, data := [42, 43] })] :=
  have h := onRemoteClientMessage_routes_to_registered sampleCollaborators sampleSwarm
    { Conn := sampleConn, Message := [5, 0, 7, 1, 7, 42, 43] }
    { Metadata := some
        { Protocol := "ping", AuthPubKey := [7], Timestamp := 0, Gossip := false,
          AuthorSign := [7] },
      Payload := [42, 43] }
    { Protocol := "ping", AuthPubKey := [7], Timestamp := 0, Gossip := false, AuthorSign := [7] }
    0 (by decide) (by decide) rfl rfl (by decide)
  ⟨h.1, h.2.1⟩

/-- With a nil session `SendMessage` returns the value of `err`, which is nil
on both ways of getting the connection, and nothing is sent. -/
theorem SendMessage_of_nil_session (env : Collaborators) (peerPubKey protocol : String)
    (payload : Bytes) :
    (∀ peer conn, env.gossipPeer peerPubKey = (some peer, some conn) → conn.session = none →
        SendMessage env peerPubKey protocol payload = (.returned none, noEffects)) ∧
    (∀ other peer conn, env.gossipPeer peerPubKey = (none, other) →
        env.dhtLookup peerPubKey = .ok peer →
        env.getConnection peer.address peer.pubKey = .ok conn → conn.session = none →
        SendMessage env peerPubKey protocol payload = (.returned none, noEffects)) := by
  constructor
  · intro peer conn hg hs
    simp [SendMessage, hg, SendMessage.onConn, hs]
  · intro other peer conn hg hl hc hs
    simp [SendMessage, hg, hl, hc, SendMessage.onConn, hs]

/-- C7. On a connection with a nil session `SendMessage` sends nothing but
returns a nil error, both for a gossip neighbour ("neighbor") and for a
connection obtained from the pool ("far"). -/
theorem SendMessage_nil_session_returns_nil :
    SendMessage sampleCollaborators "neighbor" "ping" [1, 2] = (.returned none, noEffects) ∧
    (sampleCollaborators.gossipPeer "neighbor").2.map (fun c => c.session) = some none ∧
    SendMessage sampleCollaborators "far" "ping" [1, 2] = (.returned none, noEffects) ∧
    (sampleCollaborators.gossipPeer "far").1 = none := by
  decide

/-- The decoded message exists exactly when the envelope decodes, a session is
attached, the payload decrypts and the decrypted bytes decode. -/
theorem decodedMessage_eq_some (env : Collaborators) (msg : IncomingMessageEvent)
    (pm : ProtocolMessage) :
    decodedMessage env msg = some pm ↔
      ∃ c session decPayload, env.unmarshalCommon msg.Message = some c ∧
        msg.Conn.session = some session ∧ env.decrypt session c.Payload = some decPayload ∧
        env.unmarshalProtocol decPayload = some pm := by
  simp only [decodedMessage, decryptedPayload, Option.bind_eq_some]
  constructor
  · rintro ⟨d, ⟨c, h1, session, h4, h5⟩, h6⟩
    exact ⟨c, session, d, h1, h4, h5, h6⟩
  · rintro ⟨c, session, d, h1, h4, h5, h6⟩
    exact ⟨d, ⟨c, h1, session, h4, h5⟩, h6⟩

/-- C8. `onRemoteClientMessage` returns the error of the first failing check,
in the order outer decode, drift, empty payload, nil session, decrypt, inner
decode, author signature, peer binding: if a check fails and no earlier check
fails, the error of that check is returned. In particular an out-of-sync
envelope with an empty payload gives `ErrOutOfSync`, and a correctly signed
message that is not gossip and whose author is not the peer gives
`ErrNotFromPeer`. -/
theorem onRemoteClientMessage_first_failing_check (env : Collaborators) (s : swarm)
    (msg : IncomingMessageEvent) :
    (∀ k : InboundCheck, checkVerdict env msg k = some false →
        (∀ j : InboundCheck, j.order < k.order → checkVerdict env msg j ≠ some false) →
        (onRemoteClientMessage env s msg).1 = .returned (some k.error)) ∧
    (∀ c, env.unmarshalCommon msg.Message = some c → env.checkMessageDrift c.Timestamp = false →
        c.Payload = [] →
        (onRemoteClientMessage env s msg).1 = .returned (some .ErrOutOfSync)) ∧
    (∀ pm md, decodedMessage env msg = some pm → pm.Metadata = some md →
        checkVerdict env msg .drift = some true → checkVerdict env msg .payload = some true →
        env.authAuthor pm = none → md.Gossip = false →
        md.AuthPubKey ≠ msg.Conn.remotePub.bytes →
        (onRemoteClientMessage env s msg).1 = .returned (some .ErrNotFromPeer)) := by
  have main : ∀ k : InboundCheck, checkVerdict env msg k = some false →
      (∀ j : InboundCheck, j.order < k.order → checkVerdict env msg j ≠ some false) →
      (onRemoteClientMessage env s msg).1 = .returned (some k.error) := by
    intro k hfail hlt
    rcases onRemoteClientMessage_cases env s msg with
      ⟨k', hk', hpass, hr⟩ | ⟨pm, hm, hmd, hpass6, -⟩ | h3
    · have hkk : k' = k := by
        rcases Nat.lt_trichotomy k'.order k.order with h | h | h
        · exact absurd hk' (hlt k' h)
        · cases k <;> cases k' <;> simp_all [InboundCheck.order]
        · have := hpass k h
          rw [this] at hfail
          simp at hfail
      subst hkk
      rw [hr]
    · exfalso
      by_cases hlt6 : k.order < 6
      · rw [hpass6 k hlt6] at hfail
        simp at hfail
      · cases k <;> simp [InboundCheck.order] at hlt6 <;>
          simp [checkVerdict, hm, hmd] at hfail
    · have hp := (allChecksPass_iff env msg).mpr h3
      have : checkVerdict env msg k = some true := by
        cases k <;> simp_all [allChecksPass, InboundCheck.pipeline]
      rw [this] at hfail
      simp at hfail
  refine ⟨main, ?_, ?_⟩
  · intro c h1 h2 _
    refine main .drift (by simp [checkVerdict, h1, h2]) ?_
    intro j hj
    cases j <;> simp [InboundCheck.order] at hj
    simp [checkVerdict, h1]
  · intro pm md hm hmd hdrift hpay hauth hg hne
    obtain ⟨c, session, decPayload, h1, h4, h5, h6⟩ := (decodedMessage_eq_some env msg pm).mp hm
    have h2 : env.checkMessageDrift c.Timestamp = true := by
      simpa [checkVerdict, h1] using hdrift
    have h3 : ¬ c.Payload.length = 0 := by
      intro h
      have : c.Payload = [] := List.length_eq_zero.mp h
      simp [checkVerdict, h1, this] at hpay
    simp [onRemoteClientMessage, h1, h2, h3, h4, h5, h6, hmd, hauth, hg, hne]

/-- Witness of C8: a decrypt failure after five passing checks, an out-of-sync
envelope with an empty payload, and a well signed message of another author. -/
theorem onRemoteClientMessage_first_failing_check_witness :
    (onRemoteClientMessage sampleCollaborators sampleSwarm
        { Conn := sampleConn, Message := [5, 255, 0, 7, 1, 7] }).1 =
      .returned (some .ErrFailDecrypt) ∧
    (onRemoteClientMessage sampleCollaborators sampleSwarm
        { Conn := sampleConn, Message := [500] }).1 = .returned (some .ErrOutOfSync) ∧
    (onRemoteClientMessage sampleCollaborators sampleSwarm
        { Conn := sampleConn, Message := [5, 0, 9, 1, 9, 42, 43] }).1 =
      .returned (some .ErrNotFromPeer) :=
  ⟨(onRemoteClientMessage_first_failing_check sampleCollaborators sampleSwarm
      { Conn := sampleConn, Message := [5, 255, 0, 7, 1, 7] }).1 .decrypt (by decide)
      (fun j hj => by cases j <;> simp [InboundCheck.order] at hj <;> decide),
   (onRemoteClientMessage_first_failing_check sampleCollaborators sampleSwarm
      { Conn := sampleConn, Message := [500] }).2.1 { Timestamp := 500, Payload := [] }
      (by decide) (by decide) rfl,
   (onRemoteClientMessage_first_failing_check sampleCollaborators sampleSwarm
      { Conn := sampleConn, Message := [5, 0, 9, 1, 9, 42, 43] }).2.2
      { Metadata := some
          { Protocol := "ping", AuthPubKey := [9], Timestamp := 0, Gossip := false,
            AuthorSign := [9] },
        Payload := [42, 43] }
      { Protocol := "ping", AuthPubKey := [9], Timestamp := 0, Gossip := false,
        AuthorSign := [9] }
      (by decide) rfl (by decide) (by decide) (by decide) rfl (by decide)⟩

/-- C9. Whenever `onRemoteClientMessage` returns a non-nil error, no message
has been sent on any protocol handler channel. For an envelope that fails the
drift check the result is `ErrOutOfSync`, with no handler send, no call of
`dht.Update` and no call of `gossip.Broadcast`. -/
theorem onRemoteClientMessage_error_no_delivery (env : Collaborators) (s : swarm)
    (msg : IncomingMessageEvent) :
    (∀ e, (onRemoteClientMessage env s msg).1 = .returned (some e) →
        (onRemoteClientMessage env s msg).2.handlerSends = []) ∧
    (∀ c, env.unmarshalCommon msg.Message = some c → env.checkMessageDrift c.Timestamp = false →
        (onRemoteClientMessage env s msg).1 = .returned (some .ErrOutOfSync) ∧
        (onRemoteClientMessage env s msg).2.handlerSends = [] ∧
        (onRemoteClientMessage env s msg).2.dhtUpdates = [] ∧
        (onRemoteClientMessage env s msg).2.broadcasts = []) := by
  constructor
  · intro e he
    rcases onRemoteClientMessage_cases env s msg with
      ⟨k, -, -, hr⟩ | ⟨pm, -, -, -, hr⟩ |
      ⟨c, session, decPayload, pm, md, h1, h2, h3, h4, h5, h6, h6', h7, h8⟩
    · rw [hr]; rfl
    · rw [hr]; rfl
    · have hr := onRemoteClientMessage_of_checked env s msg c session decPayload pm md h1 h2 h3
        h4 h5 h6 h6' h7 h8
      rw [hr] at he ⊢
      by_cases hc : md.Gossip = true ∧ (env.gossipBroadcast decPayload).isSome = true
      · rw [if_pos hc]; rfl
      · rw [if_neg hc] at he ⊢
        cases hm : mapGet s.protocolHandlers md.Protocol
        · rfl
        · simp [hm] at he
  · intro c h1 h2
    simp [onRemoteClientMessage, h1, h2, noEffects]

/-- Witness of C9: an unregistered protocol gives an error and no delivery; a
time stamp of 500 is out of sync. -/
theorem onRemoteClientMessage_error_no_delivery_witness :
    (onRemoteClientMessage sampleCollaborators sampleSwarm
        { Conn := sampleConn, Message := [5, 0, 7, 3, 7, 42, 43] }).2.handlerSends = [] ∧
    (onRemoteClientMessage sampleCollaborators sampleSwarm
        { Conn := sampleConn, Message := [500, 0, 7, 1, 7, 42] }).1 =
      .returned (some .ErrOutOfSync) :=
  ⟨(onRemoteClientMessage_error_no_delivery sampleCollaborators sampleSwarm
      { Conn := sampleConn, Message := [5, 0, 7, 3, 7, 42, 43] }).1 .ErrNoProtocol (by decide),
   ((onRemoteClientMessage_error_no_delivery sampleCollaborators sampleSwarm
      { Conn := sampleConn, Message := [500, 0, 7, 1, 7, 42] }).2
      { Timestamp := 500, Payload := [0, 7, 1, 7, 42] } (by decide) (by decide)).1⟩

/-- C10. `onRemoteClientMessage` calls `dht.Update` exactly once, with the node
made of the connection's remote public key and of the host part of the remote
address, a colon and the remote listen port, if and only if all checks up to
the peer binding pass; if one of them does not pass `dht.Update` is not called.
A message that passes them and names an unregistered protocol gives
`ErrNoProtocol` after the update. -/
theorem onRemoteClientMessage_dht_update_iff (env : Collaborators) (s : swarm)
    (msg : IncomingMessageEvent) :
    ((onRemoteClientMessage env s msg).2.dhtUpdates =
        [{ pubKey := msg.Conn.remotePub,
           address := (stringsSplit msg.Conn.remoteAddr ':').headD "" ++ ":" ++
             toString msg.Conn.remoteListenPort }] ↔
      allChecksPass env msg = true) ∧
    (allChecksPass env msg = false → (onRemoteClientMessage env s msg).2.dhtUpdates = []) ∧
    (∀ pm md, allChecksPass env msg = true → decodedMessage env msg = some pm →
        pm.Metadata = some md → md.Gossip = false →
        mapGet s.protocolHandlers md.Protocol = none →
        (onRemoteClientMessage env s msg).1 = .returned (some .ErrNoProtocol) ∧
        (onRemoteClientMessage env s msg).2.dhtUpdates =
          [{ pubKey := msg.Conn.remotePub,
             address := (stringsSplit msg.Conn.remoteAddr ':').headD "" ++ ":" ++
               toString msg.Conn.remoteListenPort }]) := by
  have hpass : allChecksPass env msg = true →
      (onRemoteClientMessage env s msg).2.dhtUpdates = [remoteNodeOf msg.Conn] := by
    intro h
    obtain ⟨c, session, decPayload, pm, md, h1, h2, h3, h4, h5, h6, h6', h7, h8⟩ :=
      (allChecksPass_iff env msg).mp h
    rw [onRemoteClientMessage_of_checked env s msg c session decPayload pm md h1 h2 h3
        h4 h5 h6 h6' h7 h8]
    split
    · rfl
    · split <;> rfl
  have hfail : allChecksPass env msg = false →
      (onRemoteClientMessage env s msg).2.dhtUpdates = [] := by
    intro h
    rcases onRemoteClientMessage_cases env s msg with
      ⟨k, -, -, hr⟩ | ⟨pm, -, -, -, hr⟩ | h3
    · rw [hr]; rfl
    · rw [hr]; rfl
    · rw [(allChecksPass_iff env msg).mpr h3] at h
      cases h
  refine ⟨⟨?_, hpass⟩, hfail, ?_⟩
  · intro h
    cases hp : allChecksPass env msg
    · rw [hfail hp] at h
      cases h
    · rfl
  · intro pm md hp hm hmd hg hreg
    refine ⟨?_, hpass hp⟩
    obtain ⟨c, session, decPayload, pm', md', h1, h2, h3, h4, h5, h6, h6', h7, h8⟩ :=
      (allChecksPass_iff env msg).mp hp
    have hm' : decodedMessage env msg = some pm' :=
      (decodedMessage_eq_some env msg pm').mpr ⟨c, session, decPayload, h1, h4, h5, h6⟩
    rw [hm] at hm'
    cases hm'
    rw [hmd] at h6'
    cases h6'
    rw [onRemoteClientMessage_of_checked env s msg c session decPayload pm md h1 h2 h3
        h4 h5 h6 hmd h7 h8]
    simp [hg, hreg]

/-- Witness of C10: a message for the unregistered protocol "pong" updates the
DHT once and is answered `ErrNoProtocol`; an out-of-sync one updates nothing. -/
theorem onRemoteClientMessage_dht_update_iff_witness :
    ((onRemoteClientMessage sampleCollaborators sampleSwarm
        { Conn := sampleConn, Message := [5, 0, 7, 3, 7, 42, 43] }).1 =
        .returned (some .ErrNoProtocol) ∧
      (onRemoteClientMessage sampleCollaborators sampleSwarm
        { Conn := sampleConn, Message := [5, 0, 7, 3, 7, 42, 43] }).2.dhtUpdates =
        [{ pubKey := sampleKey, address := "10.0.0.7:7513" }]) ∧
    (onRemoteClientMessage sampleCollaborators sampleSwarm
        { Conn := sampleConn, Message := [500] }).2.dhtUpdates = [] :=
  ⟨(onRemoteClientMessage_dht_update_iff sampleCollaborators sampleSwarm
      { Conn := sampleConn, Message := [5, 0, 7, 3, 7, 42, 43] }).2.2
      { Metadata := some
          { Protocol := "pong", AuthPubKey := [7], Timestamp := 0, Gossip := false,
            AuthorSign := [7] },
        Payload := [42, 43] }
      { Protocol := "pong", AuthPubKey := [7], Timestamp := 0, Gossip := false,
        AuthorSign := [7] }
      (by decide) (by decide) rfl rfl (by decide),
   (onRemoteClientMessage_dht_update_iff sampleCollaborators sampleSwarm
      { Conn := sampleConn, Message := [500] }).2.1 (by decide)⟩

/-! ## Connection pool: registration and delivery -/

theorem handleDialResult_delivered (cp : ConnectionPool) (rPub : PublicKey)
    (result : dialResult) :
    (handleDialResult cp rPub result).delivered =
      cp.delivered ++ ((mapGet cp.pending rPub.str).getD []).map (fun p => (p, result)) := by
  simp [handleDialResult, deliver_loop]

/-- One registration when somebody already waits for the key: no dial is
started, the new sink is appended. -/
theorem GetConnection_of_pending (cp : ConnectionPool) (address : String)
    (remotePub : PublicKey) (l : List Nat) (hs : cp.shutdown = false)
    (hc : mapGet cp.connections remotePub.str = none)
    (hp : mapGet cp.pending remotePub.str = some l) :
    GetConnection cp address remotePub =
      ({ cp with
          nextChan := cp.nextChan + 1,
          pending := mapSet cp.pending remotePub.str (l ++ [cp.nextChan]) },
        .waiting cp.nextChan) := by
  simp [GetConnection, hs, hc, hp]

/-- One registration when nobody waits for the key: a dial is started. -/
theorem GetConnection_of_no_pending (cp : ConnectionPool) (address : String)
    (remotePub : PublicKey) (hs : cp.shutdown = false)
    (hc : mapGet cp.connections remotePub.str = none)
    (hp : mapGet cp.pending remotePub.str = none) :
    GetConnection cp address remotePub =
      ({ cp with
          dialsStarted := cp.dialsStarted ++ [(address, remotePub)],
          dialsInFlight := cp.dialsInFlight ++ [(address, remotePub)],
          nextChan := cp.nextChan + 1,
          pending := mapSet cp.pending remotePub.str [cp.nextChan] },
        .waiting cp.nextChan) := by
  simp [GetConnection, hs, hc, hp]

/-- A run of registrations for a key that already has waiters only appends
sinks. -/
theorem getConnectionCalls_of_pending (address : String) (remotePub : PublicKey) (n : Nat) :
    ∀ (cp : ConnectionPool) (l : List Nat), cp.shutdown = false →
      mapGet cp.connections remotePub.str = none →
      mapGet cp.pending remotePub.str = some l →
      (getConnectionCalls cp address remotePub n).2 =
          (List.range n).map (fun i => GetConnectionStep.waiting (cp.nextChan + i)) ∧
        mapGet (getConnectionCalls cp address remotePub n).1.pending remotePub.str =
          some (l ++ (List.range n).map (fun i => cp.nextChan + i)) ∧
        (getConnectionCalls cp address remotePub n).1.connections = cp.connections ∧
        (getConnectionCalls cp address remotePub n).1.dialsStarted = cp.dialsStarted ∧
        (getConnectionCalls cp address remotePub n).1.dialsInFlight = cp.dialsInFlight ∧
        (getConnectionCalls cp address remotePub n).1.delivered = cp.delivered := by
  induction n with
  | zero => intro cp l _ _ hp; simp [getConnectionCalls, hp]
  | succ n ih =>
    intro cp l hs hc hp
    have hstep := GetConnection_of_pending cp address remotePub l hs hc hp
    have h := ih (GetConnection cp address remotePub).1 (l ++ [cp.nextChan])
      (by rw [hstep]; exact hs) (by rw [hstep]; exact hc)
      (by rw [hstep]; exact mapGet_mapSet_self _ _ _)
    simp only [getConnectionCalls]
    rw [hstep] at h ⊢
    obtain ⟨h1, h2, h3, h4, h5, h6⟩ := h
    refine ⟨?_, ?_, h3, h4, h5, h6⟩
    · rw [h1, List.range_succ_eq_map]
      simp [Function.comp_def, Nat.add_assoc, Nat.add_comm 1]
    · rw [h2, List.range_succ_eq_map]
      simp [Function.comp_def, Nat.add_assoc, Nat.add_comm 1]

/-! ## Connection pool: the claims -/

/-- C3. Dial coalescing. From a pool that is not shut down and has no
connection and no pending entry for the key, after `N ≥ 1` registrations
`GetConnection(address, remotePub)` every caller waits on a sink of its own,
exactly one dial has been started (for that address and key) and the pending
entry of the key holds exactly these `N` sinks; when the dial then succeeds
with connection `c`, `(c, nil)` is sent exactly once to each of the `N` sinks,
`c` is stored under the key and the key is gone from `pending`. -/
theorem GetConnection_dial_coalescing (cp : ConnectionPool) (address : String)
    (remotePub : PublicKey) (N : Nat) (hs : cp.shutdown = false)
    (hc : mapGet cp.connections remotePub.str = none)
    (hp : mapGet cp.pending remotePub.str = none) (hN : 1 ≤ N) :
    ∃ sinks : List Nat, sinks.length = N ∧ sinks.Nodup ∧
      (getConnectionCalls cp address remotePub N).2 = sinks.map GetConnectionStep.waiting ∧
      (getConnectionCalls cp address remotePub N).1.dialsStarted =
        cp.dialsStarted ++ [(address, remotePub)] ∧
      mapGet (getConnectionCalls cp address remotePub N).1.pending remotePub.str = some sinks ∧
      ∀ c : Connection,
        (dialTask (getConnectionCalls cp address remotePub N).1 address remotePub
            (.ok c)).delivered =
          cp.delivered ++ sinks.map (fun p => (p, { conn := some c, err := none })) ∧
        mapGet (dialTask (getConnectionCalls cp address remotePub N).1 address remotePub
            (.ok c)).connections remotePub.str = some c ∧
        mapGet (dialTask (getConnectionCalls cp address remotePub N).1 address remotePub
            (.ok c)).pending remotePub.str = none ∧
        (dialTask (getConnectionCalls cp address remotePub N).1 address remotePub
            (.ok c)).dialsStarted = cp.dialsStarted ++ [(address, remotePub)] := by
  obtain ⟨n, rfl⟩ : ∃ n, N = n + 1 := ⟨N - 1, by omega⟩
  have hstep := GetConnection_of_no_pending cp address remotePub hs hc hp
  have hrest := getConnectionCalls_of_pending address remotePub n
    (GetConnection cp address remotePub).1 [cp.nextChan]
    (by rw [hstep]; exact hs) (by rw [hstep]; exact hc)
    (by rw [hstep]; exact mapGet_mapSet_self _ _ _)
  rw [hstep] at hrest
  obtain ⟨h1, h2, h3, h4, h5, h6⟩ := hrest
  simp only at h1 h2 h3 h4 h5 h6
  refine ⟨(List.range (n + 1)).map (fun i => cp.nextChan + i), by simp, ?_, ?_, ?_, ?_, ?_⟩
  · exact (List.nodup_range (n + 1)).map (fun a b h => Nat.add_left_cancel h)
  · simp only [getConnectionCalls, hstep]
    rw [h1, List.range_succ_eq_map]
    simp [Function.comp_def, Nat.add_assoc, Nat.add_comm 1]
  · simp only [getConnectionCalls, hstep]
    exact h4
  · simp only [getConnectionCalls, hstep]
    rw [h2, List.range_succ_eq_map]
    simp [Function.comp_def, Nat.add_assoc, Nat.add_comm 1]
  · intro c
    have hpend : mapGet (getConnectionCalls cp address remotePub (n + 1)).1.pending
        remotePub.str = some ((List.range (n + 1)).map (fun i => cp.nextChan + i)) := by
      simp only [getConnectionCalls, hstep]
      rw [h2, List.range_succ_eq_map]
      simp [Function.comp_def, Nat.add_assoc, Nat.add_comm 1]
    have hdel : (getConnectionCalls cp address remotePub (n + 1)).1.delivered = cp.delivered := by
      simp only [getConnectionCalls, hstep]
      exact h6
    have hds : (getConnectionCalls cp address remotePub (n + 1)).1.dialsStarted =
        cp.dialsStarted ++ [(address, remotePub)] := by
      simp only [getConnectionCalls, hstep]
      exact h4
    refine ⟨?_, ?_, ?_, ?_⟩
    · simp only [dialTask, handleNewConnection, handleDialResult_delivered, hpend, hdel,
        Option.getD_some]
    · simp only [dialTask, handleNewConnection, handleDialResult]
      exact mapGet_mapSet_self _ _ _
    · simp only [dialTask, handleNewConnection, handleDialResult]
      exact mapGet_mapDelete_self _ _
    · simp only [dialTask, handleNewConnection, handleDialResult, hds]

/-- Witness of C3: three callers on the new pool share one dial and three
sinks. -/
theorem GetConnection_dial_coalescing_witness :
    ∃ sinks : List Nat, sinks.length = 3 ∧
      mapGet (getConnectionCalls NewConnectionPool "10.0.0.7:7513" sampleKey 3).1.pending
        sampleKey.str = some sinks ∧
      (getConnectionCalls NewConnectionPool "10.0.0.7:7513" sampleKey 3).1.dialsStarted =
        [("10.0.0.7:7513", sampleKey)] ∧
      (dialTask (getConnectionCalls NewConnectionPool "10.0.0.7:7513" sampleKey 3).1
          "10.0.0.7:7513" sampleKey (.ok sampleConn)).delivered =
        sinks.map (fun p => (p, { conn := some sampleConn, err := none })) :=
  match GetConnection_dial_coalescing NewConnectionPool "10.0.0.7:7513" sampleKey 3 rfl rfl rfl
      (by decide) with
  | ⟨sinks, hl, _, _, hd, hp, hc⟩ => ⟨sinks, hl, hp, hd, (hc sampleConn).1⟩

/-- C4. Id-match guard. `handleClosedConnection(c)` removes the entry of `c`'s
remote key exactly when an entry is stored under that key and its ID equals the
ID of `c`; otherwise the connections map is unchanged. The entries of other
keys and the pending map never change. After installing `c1` and then `c2`
(another ID) under the same key, closing `c1` leaves `c2` stored. -/
theorem handleClosedConnection_id_guard (cp : ConnectionPool) (c : Connection) :
    ((mapGet cp.connections c.remotePub.str ≠ none ∧
        mapGet (handleClosedConnection cp c).connections c.remotePub.str = none) ↔
      ∃ cur, mapGet cp.connections c.remotePub.str = some cur ∧ cur.id = c.id) ∧
    ((¬ ∃ cur, mapGet cp.connections c.remotePub.str = some cur ∧ cur.id = c.id) →
      (handleClosedConnection cp c).connections = cp.connections) ∧
    (∀ k, k ≠ c.remotePub.str →
      mapGet (handleClosedConnection cp c).connections k = mapGet cp.connections k) ∧
    (handleClosedConnection cp c).pending = cp.pending ∧
    (∀ (rPub : PublicKey) (c1 c2 : Connection) (s1 s2 : ConnectionSource),
      c1.remotePub.str = rPub.str → c1.id ≠ c2.id →
      mapGet (handleClosedConnection
          (handleNewConnection (handleNewConnection cp rPub c1 s1) rPub c2 s2) c1).connections
        rPub.str = some c2) := by
  have hconn : ∀ (q : ConnectionPool) (d : Connection),
      (handleClosedConnection q d).connections =
        match mapGet q.connections d.remotePub.str with
        | some cur =>
          if cur.id = d.id then mapDelete q.connections d.remotePub.str else q.connections
        | none => q.connections := by
    intro q d
    simp only [handleClosedConnection]
    cases hq : mapGet q.connections d.remotePub.str with
    | none => cases ho : q.OnClose <;> simp [ho]
    | some cur =>
      by_cases hid : cur.id = d.id
      · cases ho : q.OnClose <;> simp [ho, hid]
      · cases ho : q.OnClose <;> simp [ho, hid]
  have hpend : (handleClosedConnection cp c).pending = cp.pending := by
    simp only [handleClosedConnection]
    cases hq : mapGet cp.connections c.remotePub.str with
    | none => cases ho : cp.OnClose <;> simp [ho]
    | some cur =>
      by_cases hid : cur.id = c.id
      · cases ho : cp.OnClose <;> simp [ho, hid]
      · cases ho : cp.OnClose <;> simp [ho, hid]
  refine ⟨?_, ?_, ?_, hpend, ?_⟩
  · rw [hconn]
    cases hq : mapGet cp.connections c.remotePub.str with
    | none => simp
    | some cur =>
      by_cases hid : cur.id = c.id
      · simp [hid, mapGet_mapDelete_self]
      · simp [hid, hq]
  · intro hno
    rw [hconn]
    cases hq : mapGet cp.connections c.remotePub.str with
    | none => rfl
    | some cur =>
      have hid : ¬ cur.id = c.id := fun h => hno ⟨cur, hq, h⟩
      simp [hid]
  · intro k hk
    rw [hconn]
    cases hq : mapGet cp.connections c.remotePub.str with
    | none => rfl
    | some cur =>
      by_cases hid : cur.id = c.id
      · simp only [hid, if_true]
        exact mapGet_mapDelete_ne _ _ _ hk
      · simp only [hid, if_false]
  · intro rPub c1 c2 s1 s2 hkey hid
    rw [hconn]
    have hget : mapGet (handleNewConnection (handleNewConnection cp rPub c1 s1) rPub c2
        s2).connections c1.remotePub.str = some c2 := by
      rw [hkey]
      simp only [handleNewConnection, handleDialResult]
      exact mapGet_mapSet_self _ _ _
    rw [hget]
    have hid' : ¬ c2.id = c1.id := fun h => hid h.symm
    simp only [hid', if_false]
    rw [← hkey]
    exact hget

/-- Witness of C4: in a pool that holds `sampleConn2` for the peer, closing the
older `sampleConn` of that peer changes nothing, closing `sampleConn2` removes
the entry. -/
theorem handleClosedConnection_id_guard_witness :
    (handleClosedConnection (handleNewConnection NewConnectionPool sampleKey sampleConn2 .Remote)
        sampleConn).connections =
      (handleNewConnection NewConnectionPool sampleKey sampleConn2 .Remote).connections ∧
    mapGet (handleClosedConnection
        (handleNewConnection (handleNewConnection NewConnectionPool sampleKey sampleConn .Local)
          sampleKey sampleConn2 .Remote) sampleConn).connections sampleKey.str =
      some sampleConn2 :=
  ⟨(handleClosedConnection_id_guard
      (handleNewConnection NewConnectionPool sampleKey sampleConn2 .Remote) sampleConn).2.1
      (by decide),
   (handleClosedConnection_id_guard NewConnectionPool sampleConn).2.2.2.2 sampleKey sampleConn
      sampleConn2 .Local .Remote rfl (by decide)⟩

/-- C5. After `handleNewConnection(rPub, conn, source)` the connection stored
under the key is `conn`, whatever was stored before and whatever the source,
and the entry of every other key is unchanged. -/
theorem handleNewConnection_overwrites (cp : ConnectionPool) (rPub : PublicKey)
    (conn : Connection) (source : ConnectionSource) :
    mapGet (handleNewConnection cp rPub conn source).connections rPub.str = some conn ∧
    ∀ k, k ≠ rPub.str →
      mapGet (handleNewConnection cp rPub conn source).connections k =
        mapGet cp.connections k := by
  constructor
  · simp only [handleNewConnection, handleDialResult]
    exact mapGet_mapSet_self _ _ _
  · intro k hk
    simp only [handleNewConnection, handleDialResult]
    exact mapGet_mapSet_ne _ _ _ _ hk

/-- Witness of C5: a remote connection replaces the one stored for the peer and
leaves another key absent. -/
theorem handleNewConnection_overwrites_witness :
    mapGet (handleNewConnection
        (handleNewConnection NewConnectionPool sampleKey sampleConn .Local) sampleKey
        sampleConn2 .Remote).connections "peer7" = some sampleConn2 ∧
    mapGet (handleNewConnection
        (handleNewConnection NewConnectionPool sampleKey sampleConn .Local) sampleKey
        sampleConn2 .Remote).connections "peer9" =
      mapGet (handleNewConnection NewConnectionPool sampleKey sampleConn .Local).connections
        "peer9" :=
  ⟨(handleNewConnection_overwrites
      (handleNewConnection NewConnectionPool sampleKey sampleConn .Local) sampleKey
      sampleConn2 .Remote).1,
   (handleNewConnection_overwrites
      (handleNewConnection NewConnectionPool sampleKey sampleConn .Local) sampleKey
      sampleConn2 .Remote).2 "peer9" (by decide)⟩

/-- C6. `handleDialResult(rPub, result)` sends `result` once to each sink of
the pending entry of the key, in registration order, and to no other sink;
afterwards the key is absent from `pending`, the pending entries of all other
keys and the whole connections map are unchanged, so a failed dial stores no
connection. -/
theorem handleDialResult_delivers_to_waiters (cp : ConnectionPool) (rPub : PublicKey)
    (result : dialResult) :
    (handleDialResult cp rPub result).delivered =
      cp.delivered ++ ((mapGet cp.pending rPub.str).getD []).map (fun p => (p, result)) ∧
    mapGet (handleDialResult cp rPub result).pending rPub.str = none ∧
    (∀ k, k ≠ rPub.str →
      mapGet (handleDialResult cp rPub result).pending k = mapGet cp.pending k) ∧
    (handleDialResult cp rPub result).connections = cp.connections ∧
    ∀ (address : String) (err : Err),
      (dialTask cp address rPub (.error err)).connections = cp.connections := by
  refine ⟨handleDialResult_delivered cp rPub result, ?_, ?_, rfl, ?_⟩
  · simp only [handleDialResult]
    exact mapGet_mapDelete_self _ _
  · intro k hk
    simp only [handleDialResult]
    exact mapGet_mapDelete_ne _ _ _ hk
  · intro address err
    rfl

/-- Witness of C6: a failed dial reaches the two waiters of the peer in order;
the waiter of the other key stays registered. -/
theorem handleDialResult_delivers_to_waiters_witness :
    (handleDialResult samplePool sampleKey
        { conn := none, err := some (.other "dial failed") }).delivered =
      [(0, { conn := none, err := some (.other "dial failed") }),
       (1, { conn := none, err := some (.other "dial failed") })] ∧
    mapGet (handleDialResult samplePool sampleKey
        { conn := none, err := some (.other "dial failed") }).pending "peer9" = some [2] :=
  ⟨(handleDialResult_delivers_to_waiters samplePool sampleKey
      { conn := none, err := some (.other "dial failed") }).1,
   (handleDialResult_delivers_to_waiters samplePool sampleKey
      { conn := none, err := some (.other "dial failed") }).2.2.1 "peer9" (by decide)⟩

/-! ## Swarm: closing on error, gossip duplicates -/

/-- C11. While the swarm is not shut down, `processMessage` calls `Close` on
the connection of the event if and only if `onRemoteClientMessage` returns a
non-nil error: an error closes that connection, a message processed without
error closes nothing, and no other connection is ever closed. -/
theorem processMessage_closes_iff_error (env : Collaborators) (s : swarm)
    (ime : IncomingMessageEvent) :
    ((processMessage env s false ime).2.2 = [ime.Conn] ↔
      ∃ e, (onRemoteClientMessage env s ime).1 = .returned (some e)) ∧
    ((¬ ∃ e, (onRemoteClientMessage env s ime).1 = .returned (some e)) →
      (processMessage env s false ime).2.2 = []) ∧
    ((onRemoteClientMessage env s ime).1 = .returned none →
      (processMessage env s false ime).1 = .returned none ∧
      (processMessage env s false ime).2.2 = []) := by
  cases h : onRemoteClientMessage env s ime with
  | mk out eff =>
    cases out with
    | panicked => simp [processMessage, h]
    | returned err =>
      cases err with
      | none => simp [processMessage, h]
      | some e => simp [processMessage, h]

/-- Witness of C11: an out-of-sync event closes its connection, a good one does
not. -/
theorem processMessage_closes_iff_error_witness :
    (processMessage sampleCollaborators sampleSwarm false
        { Conn := sampleConn, Message := [500] }).2.2 = [sampleConn] ∧
    (processMessage sampleCollaborators sampleSwarm false
        { Conn := sampleConn, Message := [5, 0, 7, 1, 7, 42, 43] }).2.2 = [] :=
  ⟨(processMessage_closes_iff_error sampleCollaborators sampleSwarm
      { Conn := sampleConn, Message := [500] }).1.mpr ⟨.ErrOutOfSync, by decide⟩,
   ((processMessage_closes_iff_error sampleCollaborators sampleSwarm
      { Conn := sampleConn, Message := [5, 0, 7, 1, 7, 42, 43] }).2.2 (by decide)).2⟩

/-- C19. For an authenticated gossip message whose `gossip.Broadcast` returns
an error, `onRemoteClientMessage` returns nil and sends nothing on any protocol
handler channel, whatever the handler map holds; for a message that is not
gossip `gossip.Broadcast` is not called. -/
theorem onRemoteClientMessage_gossip_duplicate_swallowed (env : Collaborators) (s : swarm)
    (msg : IncomingMessageEvent) (pm : ProtocolMessage) (md : Metadata)
    (hpm : decodedMessage env msg = some pm) (hmd : pm.Metadata = some md) :
    (∀ decPayload e, allChecksPass env msg = true → md.Gossip = true →
        decryptedPayload env msg = some decPayload →
        env.gossipBroadcast decPayload = some e →
        (onRemoteClientMessage env s msg).1 = .returned none ∧
        (onRemoteClientMessage env s msg).2.handlerSends = [] ∧
        (onRemoteClientMessage env s msg).2.broadcasts = [decPayload]) ∧
    (md.Gossip = false → (onRemoteClientMessage env s msg).2.broadcasts = []) := by
  constructor
  · intro decPayload e hp hg hd hb
    obtain ⟨c, session, decPayload', pm', md', h1, h2, h3, h4, h5, h6, h6', h7, h8⟩ :=
      (allChecksPass_iff env msg).mp hp
    have hd' : decryptedPayload env msg = some decPayload' := by
      simp [decryptedPayload, h1, h4, h5]
    rw [hd] at hd'
    cases hd'
    have hm' : decodedMessage env msg = some pm' :=
      (decodedMessage_eq_some env msg pm').mpr ⟨c, session, decPayload, h1, h4, h5, h6⟩
    rw [hpm] at hm'
    cases hm'
    rw [hmd] at h6'
    cases h6'
    rw [onRemoteClientMessage_of_checked env s msg c session decPayload pm md h1 h2 h3
        h4 h5 h6 hmd h7 h8]
    simp [hg, hb, noEffects]
  · intro hg
    rcases onRemoteClientMessage_cases env s msg with
      ⟨k, -, -, hr⟩ | ⟨pm', -, -, -, hr⟩ |
      ⟨c, session, decPayload, pm', md', h1, h2, h3, h4, h5, h6, h6', h7, h8⟩
    · rw [hr]; rfl
    · rw [hr]; rfl
    · have hm' : decodedMessage env msg = some pm' :=
        (decodedMessage_eq_some env msg pm').mpr ⟨c, session, decPayload, h1, h4, h5, h6⟩
      rw [hpm] at hm'
      cases hm'
      rw [hmd] at h6'
      cases h6'
      rw [onRemoteClientMessage_of_checked env s msg c session decPayload pm md h1 h2 h3
          h4 h5 h6 hmd h7 h8]
      cases hm : mapGet s.protocolHandlers md.Protocol <;> simp [hg, noEffects]

/-- Witness of C19: a duplicate gossip message for the registered protocol
"ping" is not delivered; a message that is not gossip is not broadcast. -/
theorem onRemoteClientMessage_gossip_duplicate_swallowed_witness :
    ((onRemoteClientMessage sampleCollaborators sampleSwarm
        { Conn := sampleConn, Message := [5, 1, 9, 1, 9, 42, 43] }).1 = .returned none ∧
      (onRemoteClientMessage sampleCollaborators sampleSwarm
        { Conn := sampleConn, Message := [5, 1, 9, 1, 9, 42, 43] }).2.handlerSends = [] ∧
      (onRemoteClientMessage sampleCollaborators sampleSwarm
        { Conn := sampleConn, Message := [5, 1, 9, 1, 9, 42, 43] }).2.broadcasts =
        [[1, 9, 1, 9, 42, 43]]) ∧
    (onRemoteClientMessage sampleCollaborators sampleSwarm
        { Conn := sampleConn, Message := [5, 0, 7, 1, 7, 42, 43] }).2.broadcasts = [] :=
  ⟨(onRemoteClientMessage_gossip_duplicate_swallowed sampleCollaborators sampleSwarm
      { Conn := sampleConn, Message := [5, 1, 9, 1, 9, 42, 43] }
      { Metadata := some
          { Protocol := "ping", AuthPubKey := [9], Timestamp := 0, Gossip := true,
            AuthorSign := [9] },
        Payload := [42, 43] }
      { Protocol := "ping", AuthPubKey := [9], Timestamp := 0, Gossip := true, AuthorSign := [9] }
      (by decide) rfl).1 [1, 9, 1, 9, 42, 43] (.other "old message") (by decide) rfl (by decide)
      (by decide),
   (onRemoteClientMessage_gossip_duplicate_swallowed sampleCollaborators sampleSwarm
      { Conn := sampleConn, Message := [5, 0, 7, 1, 7, 42, 43] }
      { Metadata := some
          { Protocol := "ping", AuthPubKey := [7], Timestamp := 0, Gossip := false,
            AuthorSign := [7] },
        Payload := [42, 43] }
      { Protocol := "ping", AuthPubKey := [7], Timestamp := 0, Gossip := false,
        AuthorSign := [7] }
      (by decide) rfl).2 rfl⟩

/-! ## Session -/

/-- C12. Round trip: for every payload and every session, fresh or after any
number of earlier `Encrypt`/`Decrypt` pairs, `Encrypt` returns no error and
`Decrypt` of its output returns the payload with no error. -/
theorem Decrypt_Encrypt_round_trip (n : NetworkSessionImpl) (earlier : List Bytes)
    (payload : Bytes) :
    ((encryptDecryptPairs n earlier).Encrypt payload).2.2 = none ∧
    ((((encryptDecryptPairs n earlier).Encrypt payload).1).Decrypt
        ((encryptDecryptPairs n earlier).Encrypt payload).2.1).2 = (payload, none) := by
  constructor <;> rfl

/-- C13, as the claim states it, fails: on the empty input `Encrypt` and
`Decrypt` return the empty output and a nil error. -/
theorem Encrypt_Decrypt_empty_no_error :
    (sampleSession.Encrypt []).2 = ([], none) ∧ (sampleSession.Decrypt []).2 = ([], none) := by
  decide

/-- C13, amended. Called with an empty input, `Encrypt` and `Decrypt` return
the empty output and a nil error and leave the session as it is. -/
theorem Encrypt_Decrypt_empty_identity (n : NetworkSessionImpl) :
    n.Encrypt [] = (n, [], none) ∧ n.Decrypt [] = (n, [], none) :=
  ⟨rfl, rfl⟩

/-! ## Transport: handshake on the accepted side -/

/-- The loop of `publishNewRemoteConnection` sends once on each subscriber
channel, in order. -/
theorem publishNewRemoteConnection_eq_map (n : Net) (conn : FormattedConnection) :
    publishNewRemoteConnection n conn = n.regNewRemoteConn.map (fun ch => (ch, conn)) := by
  have h : ∀ (l : List Nat) (acc : List (Nat × FormattedConnection)),
      l.foldl (fun sends c => sends ++ [(c, conn)]) acc = acc ++ l.map (fun ch => (ch, conn)) := by
    intro l
    induction l with
    | nil => intro acc; simp
    | cons a rest ih => intro acc; simp [List.foldl, ih]
  simpa [publishNewRemoteConnection] using h n.regNewRemoteConn []

/-- The two ways `HandlePreSessionIncomingMessage` ends: with an error, the
session untouched and nothing published; or with nil, the session attached, the
port of the request recorded and the connection published as it then is. -/
theorem HandlePreSessionIncomingMessage_cases (env : NetCollaborators) (n : Net)
    (c : FormattedConnection) (message : Bytes) :
    ((∃ e, (HandlePreSessionIncomingMessage env n c message).err = some e) ∧
      (HandlePreSessionIncomingMessage env n c message).conn.session = c.session ∧
      (HandlePreSessionIncomingMessage env n c message).newRemoteSends = [] ∧
      (HandlePreSessionIncomingMessage env n c message).framesOut = []) ∨
    ((HandlePreSessionIncomingMessage env n c message).err = none ∧
      ∃ data session, env.unmarshalHandshake message = .ok data ∧
        (HandlePreSessionIncomingMessage env n c message).conn.session = some session ∧
        (HandlePreSessionIncomingMessage env n c message).conn.remoteListenPort = data.Port ∧
        (HandlePreSessionIncomingMessage env n c message).conn.remotePub ≠ none ∧
        (HandlePreSessionIncomingMessage env n c message).newRemoteSends =
          n.regNewRemoteConn.map
            (fun ch => (ch, (HandlePreSessionIncomingMessage env n c message).conn))) := by
  unfold HandlePreSessionIncomingMessage
  cases h1 : env.unmarshalHandshake message with
  | error err => exact Or.inl ⟨⟨_, rfl⟩, rfl, rfl, rfl⟩
  | ok data =>
    cases hk : c.remotePub with
    | none =>
      cases h2 : env.newPublicKey data.NodePubKey with
      | error err => simp [h2]
      | ok rPub =>
        cases h3 : env.processHandshakeRequest rPub data with
        | error err => simp [h2, h3]
        | ok rs =>
          obtain ⟨respData, session⟩ := rs
          cases h4 : env.marshalHandshake respData with
          | error err => simp [h2, h3, h4]
          | ok payload =>
            cases h5 : env.formatterOut { c with remotePub := some rPub } payload with
            | some err => simp [h2, h3, h4, h5]
            | none =>
              simp [h2, h3, h4, h5, publishNewRemoteConnection_eq_map]
    | some rPub =>
      cases h3 : env.processHandshakeRequest rPub data with
      | error err => simp [h3]
      | ok rs =>
        obtain ⟨respData, session⟩ := rs
        cases h4 : env.marshalHandshake respData with
        | error err => simp [h3, h4]
        | ok payload =>
          cases h5 : env.formatterOut c payload with
          | some err => simp [h3, h4, h5]
          | none =>
            simp [h3, h4, h5, publishNewRemoteConnection_eq_map, hk]

/-- The handler never unsets the remote key. -/
theorem HandlePreSessionIncomingMessage_keeps_key (env : NetCollaborators) (n : Net)
    (c : FormattedConnection) (message : Bytes) (hk : c.remotePub ≠ none) :
    (HandlePreSessionIncomingMessage env n c message).conn.remotePub ≠ none := by
  unfold HandlePreSessionIncomingMessage
  cases h1 : env.unmarshalHandshake message with
  | error err => exact hk
  | ok data =>
    cases hk' : c.remotePub with
    | none => exact absurd hk' hk
    | some rPub =>
      cases h3 : env.processHandshakeRequest rPub data with
      | error err => simp [h3, hk']
      | ok rs =>
        obtain ⟨respData, session⟩ := rs
        cases h4 : env.marshalHandshake respData with
        | error err => simp [h3, h4, hk']
        | ok payload =>
          cases h5 : env.formatterOut c payload with
          | some err => simp [h3, h4, h5, hk']
          | none => simp [h3, h4, h5, hk']

/-- C16. On a connection without session `HandlePreSessionIncomingMessage`
publishes the connection if and only if it returns nil. When it returns nil the
published connection carries the session and the port of the request, and it is
sent once on every subscriber channel; when it returns an error the session of
the connection is still nil and nothing is sent on any subscriber channel. -/
theorem HandlePreSessionIncomingMessage_publishes_iff_nil (env : NetCollaborators) (n : Net)
    (c : FormattedConnection) (message : Bytes) (hs : c.session = none) :
    ((HandlePreSessionIncomingMessage env n c message).err = none →
      ∃ data session, env.unmarshalHandshake message = .ok data ∧
        (HandlePreSessionIncomingMessage env n c message).conn.session = some session ∧
        (HandlePreSessionIncomingMessage env n c message).conn.remoteListenPort = data.Port ∧
        (HandlePreSessionIncomingMessage env n c message).newRemoteSends =
          n.regNewRemoteConn.map
            (fun ch => (ch, (HandlePreSessionIncomingMessage env n c message).conn))) ∧
    ((HandlePreSessionIncomingMessage env n c message).err ≠ none →
      (HandlePreSessionIncomingMessage env n c message).conn.session = none ∧
      (HandlePreSessionIncomingMessage env n c message).newRemoteSends = []) ∧
    (n.regNewRemoteConn ≠ [] →
      ((HandlePreSessionIncomingMessage env n c message).newRemoteSends ≠ [] ↔
        (HandlePreSessionIncomingMessage env n c message).err = none)) := by
  rcases HandlePreSessionIncomingMessage_cases env n c message with
    ⟨⟨e, he⟩, h1, h2, -⟩ | ⟨he, data, session, hd, h1, h2, -, h3⟩
  · refine ⟨?_, ?_, ?_⟩
    · intro h; rw [he] at h; cases h
    · intro _; exact ⟨h1.trans hs, h2⟩
    · intro _; simp [h2, he]
  · refine ⟨?_, ?_, ?_⟩
    · intro _; exact ⟨data, session, hd, h1, h2, h3⟩
    · intro h; exact absurd he h
    · intro hne
      rw [h3]
      simp [he, hne]

/-- Witness of C16: a good handshake request on the accepted connection is
published to both subscribers with session and port; a bad frame is not. -/
theorem HandlePreSessionIncomingMessage_publishes_iff_nil_witness :
    (HandlePreSessionIncomingMessage sampleNetCollaborators sampleNet acceptedConn.conn
        [7, 7002]).newRemoteSends =
      [(0, { id := "a1", remotePub := some sampleKey, remoteAddr := "10.0.0.9:51000",
             remoteListenPort := 7002, session := some { id := [9] } }),
       (1, { id := "a1", remotePub := some sampleKey, remoteAddr := "10.0.0.9:51000",
             remoteListenPort := 7002, session := some { id := [9] } })] ∧
    ((HandlePreSessionIncomingMessage sampleNetCollaborators sampleNet acceptedConn.conn
        [1]).conn.session = none ∧
      (HandlePreSessionIncomingMessage sampleNetCollaborators sampleNet acceptedConn.conn
        [1]).newRemoteSends = []) :=
  ⟨by
    obtain ⟨data, session, _, _, _, h⟩ :=
      (HandlePreSessionIncomingMessage_publishes_iff_nil sampleNetCollaborators sampleNet
        acceptedConn.conn [7, 7002] rfl).1 (by decide)
    rw [h]
    decide,
   (HandlePreSessionIncomingMessage_publishes_iff_nil sampleNetCollaborators sampleNet
      acceptedConn.conn [1] rfl).2.1 (by decide)⟩

/-! ## Framed connection: event loop and close -/

/-- `shutdown` on a connection whose remote key is set: the loop has exited,
one more formatter close and one more closing publication. -/
theorem shutdown_of_key (rt : ConnRuntime) (err : Err) (hk : rt.conn.remotePub ≠ none) :
    (FormattedConnection.shutdown rt err).loop = .exited err ∧
    (FormattedConnection.shutdown rt err).closingSends = rt.closingSends + 1 ∧
    (FormattedConnection.shutdown rt err).formatterCloses = rt.formatterCloses + 1 ∧
    (FormattedConnection.shutdown rt err).conn = rt.conn ∧
    (FormattedConnection.shutdown rt err).closeOnceDone = rt.closeOnceDone ∧
    (FormattedConnection.shutdown rt err).closePending = rt.closePending ∧
    (FormattedConnection.shutdown rt err).closeSends = rt.closeSends := by
  unfold FormattedConnection.shutdown
  cases h : rt.conn.remotePub with
  | none => exact absurd h hk
  | some pk => simp

/-- `shutdown` on a connection without remote key panics before it closes the
formatter or publishes. -/
theorem shutdown_of_no_key (rt : ConnRuntime) (err : Err) (hk : rt.conn.remotePub = none) :
    FormattedConnection.shutdown rt err = { rt with loop := .panicked } := by
  unfold FormattedConnection.shutdown
  simp [hk]

/-- A turn of the loop leaves a connection whose loop does not run as it is. -/
theorem loopTurn_of_not_running (env : NetCollaborators) (n : Net) (rt : ConnRuntime)
    (ev : ConnEvent) (h : rt.loop ≠ .running) : loopTurn env n rt ev = rt := by
  unfold loopTurn
  simp [h]

/-- One turn of a running loop with the remote key set: the key stays set, the
`closeOnce` state is kept, and either the loop still runs with the same
counters and the same pending close, or it has exited with one more formatter
close and one more closing publication. -/
theorem loopTurn_of_key (env : NetCollaborators) (n : Net) (rt : ConnRuntime) (ev : ConnEvent)
    (hr : rt.loop = .running) (hk : rt.conn.remotePub ≠ none) :
    (loopTurn env n rt ev).conn.remotePub ≠ none ∧
    (loopTurn env n rt ev).closeOnceDone = rt.closeOnceDone ∧
    (loopTurn env n rt ev).closeSends = rt.closeSends ∧
    (((loopTurn env n rt ev).loop = .running ∧
        (loopTurn env n rt ev).closingSends = rt.closingSends ∧
        (loopTurn env n rt ev).formatterCloses = rt.formatterCloses ∧
        (loopTurn env n rt ev).closePending = rt.closePending ∧
        (ev = .closeSignal → rt.closePending = false)) ∨
      ((∃ e, (loopTurn env n rt ev).loop = .exited e) ∧
        (loopTurn env n rt ev).closingSends = rt.closingSends + 1 ∧
        (loopTurn env n rt ev).formatterCloses = rt.formatterCloses + 1)) := by
  obtain ⟨pk, hpk⟩ : ∃ pk, rt.conn.remotePub = some pk := by
    cases h : rt.conn.remotePub with
    | none => exact absurd h hk
    | some pk => exact ⟨pk, rfl⟩
  cases ev with
  | inClosed => simp [loopTurn, hr, FormattedConnection.shutdown, hpk]
  | closeSignal =>
    by_cases hp : rt.closePending = true
    · simp [loopTurn, hr, FormattedConnection.shutdown, hpk, hp]
    · simp [loopTurn, hr, hpk, hp]
  | frame msg =>
    cases hs : rt.conn.session with
    | some session => simp [loopTurn, hr, hs, hpk]
    | none =>
      have hkey := HandlePreSessionIncomingMessage_keeps_key env n rt.conn msg hk
      obtain ⟨pk', hpk'⟩ :
          ∃ pk', (HandlePreSessionIncomingMessage env n rt.conn msg).conn.remotePub = some pk' := by
        cases h : (HandlePreSessionIncomingMessage env n rt.conn msg).conn.remotePub with
        | none => exact absurd h hkey
        | some pk' => exact ⟨pk', rfl⟩
      cases he : (HandlePreSessionIncomingMessage env n rt.conn msg).err with
      | none => simp [loopTurn, hr, hs, he, hpk']
      | some e => simp [loopTurn, hr, hs, he, FormattedConnection.shutdown, hpk']

/-- With the remote key set, whatever events the loop sees: while it runs
nothing has been published on the closing-connections channel and the
formatter is open; once it has exited there is exactly one publication and one
formatter close. -/
theorem loop_closing_once_of_key (env : NetCollaborators) (n : Net) (events : List ConnEvent) :
    ∀ rt : ConnRuntime, rt.loop = .running → rt.conn.remotePub ≠ none →
      ((events.foldl (loopTurn env n) rt).loop = .running ∧
        (events.foldl (loopTurn env n) rt).closingSends = rt.closingSends ∧
        (events.foldl (loopTurn env n) rt).formatterCloses = rt.formatterCloses) ∨
      ((∃ e, (events.foldl (loopTurn env n) rt).loop = .exited e) ∧
        (events.foldl (loopTurn env n) rt).closingSends = rt.closingSends + 1 ∧
        (events.foldl (loopTurn env n) rt).formatterCloses = rt.formatterCloses + 1) := by
  induction events with
  | nil => intro rt hr _; exact Or.inl ⟨hr, rfl, rfl⟩
  | cons ev rest ih =>
    intro rt hr hk
    obtain ⟨hk', -, -, hcase⟩ := loopTurn_of_key env n rt ev hr hk
    simp only [List.foldl]
    rcases hcase with ⟨h1, h2, h3, -, -⟩ | ⟨⟨e, h1⟩, h2, h3⟩
    · rw [← h2, ← h3]
      exact ih _ h1 hk'
    · have hstay : ∀ (l : List ConnEvent) (st : ConnRuntime), st.loop ≠ .running →
          l.foldl (loopTurn env n) st = st := by
        intro l
        induction l with
        | nil => intro st _; rfl
        | cons a l ihl =>
          intro st hst
          simp only [List.foldl]
          rw [loopTurn_of_not_running env n st a hst]
          exact ihl st hst
      rw [hstay rest _ (by rw [h1]; simp)]
      exact Or.inr ⟨⟨e, h1⟩, h2, h3⟩

/-- C14. On an accepted connection, whose remote key is not yet set, the loop
exit does not publish: when the inbound stream closes before the handshake, or
when the first frame is not a handshake request, `shutdown` panics on its log
line; the connection is not sent on the closing-connections channel and the
formatter is not closed. -/
theorem beginEventProcessing_accepted_exit_panics :
    (beginEventProcessing sampleNetCollaborators sampleNet acceptedConn [.inClosed]).loop =
      .panicked ∧
    (beginEventProcessing sampleNetCollaborators sampleNet acceptedConn [.inClosed]).closingSends
      = 0 ∧
    (beginEventProcessing sampleNetCollaborators sampleNet acceptedConn
      [.inClosed]).formatterCloses = 0 ∧
    (beginEventProcessing sampleNetCollaborators sampleNet acceptedConn [.frame [1]]).loop =
      .panicked ∧
    (beginEventProcessing sampleNetCollaborators sampleNet acceptedConn
      [.frame [1]]).closingSends = 0 ∧
    (beginEventProcessing sampleNetCollaborators sampleNet acceptedConn
      [.frame [1]]).formatterCloses = 0 := by
  decide

/-- Without remote key, the closing of the inbound stream makes the loop panic
in `shutdown`, for every connection and all collaborators: nothing is published
and the formatter stays open. -/
theorem beginEventProcessing_inClosed_of_no_key (env : NetCollaborators) (n : Net)
    (rt : ConnRuntime) (hk : rt.conn.remotePub = none) :
    (beginEventProcessing env n rt [.inClosed]).loop = .panicked ∧
    (beginEventProcessing env n rt [.inClosed]).closingSends = rt.closingSends ∧
    (beginEventProcessing env n rt [.inClosed]).formatterCloses = rt.formatterCloses := by
  simp [beginEventProcessing, loopTurn, FormattedConnection.shutdown, hk]

/-- One action on a connection whose loop was started and whose remote key is
set keeps the following: the key is set; the body of `closeOnce` has run once
if `Close` was ever called and never otherwise; and either the loop runs, with
no closing publication and a close signal waiting exactly if `Close` was
called, or the loop has exited with exactly one closing publication. -/
theorem connStep_keeps_close_state (env : NetCollaborators) (n : Net) (rt : ConnRuntime)
    (a : ConnAction) (hk : rt.conn.remotePub ≠ none)
    (hs : rt.closeOnceDone = true → rt.closeSends = 1)
    (hs0 : rt.closeOnceDone = false → rt.closeSends = 0)
    (hl : (rt.loop = .running ∧ rt.closingSends = 0 ∧ rt.closePending = rt.closeOnceDone) ∨
      ((∃ e, rt.loop = .exited e) ∧ rt.closingSends = 1)) :
    (connStep env n rt a).conn.remotePub ≠ none ∧
    ((connStep env n rt a).closeOnceDone = true → (connStep env n rt a).closeSends = 1) ∧
    ((connStep env n rt a).closeOnceDone = false → (connStep env n rt a).closeSends = 0) ∧
    (((connStep env n rt a).loop = .running ∧ (connStep env n rt a).closingSends = 0 ∧
        (connStep env n rt a).closePending = (connStep env n rt a).closeOnceDone) ∨
      ((∃ e, (connStep env n rt a).loop = .exited e) ∧
        (connStep env n rt a).closingSends = 1)) ∧
    (rt.closeOnceDone = true → (connStep env n rt a).closeOnceDone = true) ∧
    (a = .close → (connStep env n rt a).closeOnceDone = true) := by
  cases a with
  | close =>
    cases hd : rt.closeOnceDone with
    | true =>
      have e : connStep env n rt .close = rt := by
        simp [connStep, FormattedConnection.Close, hd]
      rw [e]
      exact ⟨hk, hs, hs0, hl, fun _ => hd, fun _ => hd⟩
    | false =>
      have h0 := hs0 hd
      simp only [connStep, FormattedConnection.Close, hd]
      refine ⟨hk, fun _ => by simp [h0], fun h => by simp at h, ?_, fun _ => by simp,
        fun _ => by simp⟩
      rcases hl with ⟨h1, h2, -⟩ | h
      · exact Or.inl ⟨h1, h2, rfl⟩
      · exact Or.inr h
  | event ev =>
    simp only [connStep]
    rcases hl with ⟨h1, h2, h3⟩ | ⟨⟨e, h1⟩, h2⟩
    · obtain ⟨k1, k2, k3, kc⟩ := loopTurn_of_key env n rt ev h1 hk
      refine ⟨k1, fun h => k3.trans (hs (k2.symm.trans h)),
        fun h => k3.trans (hs0 (k2.symm.trans h)), ?_, fun h => k2.trans h,
        fun h => by cases h⟩
      rcases kc with ⟨c1, c2, -, c4, -⟩ | ⟨c1, c2, -⟩
      · exact Or.inl ⟨c1, c2.trans h2, (c4.trans h3).trans k2.symm⟩
      · exact Or.inr ⟨c1, by rw [c2, h2]⟩
    · have e' := loopTurn_of_not_running env n rt ev (by rw [h1]; simp)
      rw [e']
      exact ⟨hk, hs, hs0, Or.inr ⟨⟨e, h1⟩, h2⟩, fun h => h, fun h => by cases h⟩

/-- `Close` is idempotent on a connection in service: on a connection with the
remote key set and the event loop running, after any schedule of `Close` calls
and loop turns that holds at least one `Close`, the body of `closeOnce` has run
exactly once; and when the loop next comes to its `select` it takes the signal
(unless it has exited before) and there is exactly one closing publication. -/
theorem Close_idempotent_in_service (env : NetCollaborators) (n : Net)
    (actions : List ConnAction) :
    ∀ rt : ConnRuntime, rt.conn.remotePub ≠ none →
      (rt.closeOnceDone = true → rt.closeSends = 1) →
      (rt.closeOnceDone = false → rt.closeSends = 0) →
      ((rt.loop = .running ∧ rt.closingSends = 0 ∧ rt.closePending = rt.closeOnceDone) ∨
        ((∃ e, rt.loop = .exited e) ∧ rt.closingSends = 1)) →
      (rt.closeOnceDone = true ∨ ConnAction.close ∈ actions) →
      (connRun env n rt actions).closeSends = 1 ∧
      (connRun env n rt (actions ++ [.event .closeSignal])).closeSends = 1 ∧
      (connRun env n rt (actions ++ [.event .closeSignal])).closingSends = 1 ∧
      ∃ e, (connRun env n rt (actions ++ [.event .closeSignal])).loop = .exited e := by
  induction actions with
  | nil =>
    intro rt hk hs _ hl hd
    have hd' : rt.closeOnceDone = true := by
      rcases hd with h | h
      · exact h
      · cases h
    have hs' := hs hd'
    simp only [connRun, List.foldl, List.nil_append, connStep]
    refine ⟨hs', ?_⟩
    rcases hl with ⟨h1, h2, h3⟩ | ⟨⟨e, h1⟩, h2⟩
    · obtain ⟨pk, hpk⟩ : ∃ pk, rt.conn.remotePub = some pk := by
        cases h : rt.conn.remotePub with
        | none => exact absurd h hk
        | some pk => exact ⟨pk, rfl⟩
      have hp : rt.closePending = true := by rw [h3]; exact hd'
      simp [loopTurn, h1, hp, FormattedConnection.shutdown, hpk, hs', h2]
    · rw [loopTurn_of_not_running env n rt _ (by rw [h1]; simp)]
      exact ⟨hs', h2, e, h1⟩
  | cons a rest ih =>
    intro rt hk hs hs0 hl hd
    obtain ⟨k1, k2, k2', k3, k4, k5⟩ := connStep_keeps_close_state env n rt a hk hs hs0 hl
    have hd' : (connStep env n rt a).closeOnceDone = true ∨ ConnAction.close ∈ rest := by
      rcases hd with h | h
      · exact Or.inl (k4 h)
      · rcases List.mem_cons.mp h with h' | h'
        · exact Or.inl (k5 h'.symm)
        · exact Or.inr h'
    have := ih (connStep env n rt a) k1 k2 k2' k3 hd'
    simpa [connRun, List.foldl] using this

/-- C15. `Close` on a connection whose event loop was never started (the
connection of a dial that fails): three calls run the body of `closeOnce` once,
its send on `closeChan` is never received, and nothing is published on the
closing-connections channel, whatever is scheduled afterwards. -/
theorem Close_without_loop_publishes_nothing :
    (connRun sampleNetCollaborators sampleNet dialledConn
        [.close, .close, .close, .event .closeSignal]).closeSends = 1 ∧
    (connRun sampleNetCollaborators sampleNet dialledConn
        [.close, .close, .close, .event .closeSignal]).closePending = true ∧
    (connRun sampleNetCollaborators sampleNet dialledConn
        [.close, .close, .close, .event .closeSignal]).closingSends = 0 ∧
    (connRun sampleNetCollaborators sampleNet dialledConn
        [.close, .close, .close, .event .closeSignal]).formatterCloses = 0 := by
  decide

/-- Witness of the idempotence in service: the same three calls on the same
connection once its loop runs give one signal and one publication. -/
theorem Close_idempotent_in_service_witness :
    (connRun sampleNetCollaborators sampleNet { dialledConn with loop := .running }
        [.close, .close, .close]).closeSends = 1 ∧
    (connRun sampleNetCollaborators sampleNet { dialledConn with loop := .running }
        ([.close, .close, .close] ++ [.event .closeSignal])).closingSends = 1 :=
  have h := Close_idempotent_in_service sampleNetCollaborators sampleNet
    [.close, .close, .close] { dialledConn with loop := .running } (by decide) (by decide)
    (by decide) (Or.inl (by decide)) (Or.inr (by decide))
  ⟨h.1, h.2.2.1⟩

/-! ## Transport: secured dial -/

/-- On every failure after the connection was created, `createSecuredConnection`
calls `Close` on a connection whose loop is not started, and stays there. -/
theorem closeAndFail_of_new (id remoteAddr : String) (remotePub : Option PublicKey)
    (frames : List Bytes) (err : Err) :
    closeAndFail { newConnection id remoteAddr remotePub with framesOut := frames } err =
      .blockedInClose
        { newConnection id remoteAddr remotePub with
          framesOut := frames, closeOnceDone := true, closePending := true, closeSends := 1 } := by
  simp [closeAndFail, FormattedConnection.Close, newConnection]

/-- When no handshake response arrives in time, `Dial` does not return: it is
parked in `conn.Close()`, the formatter is open, nothing is published on the
closing-connections channel, no session is attached and the loop is not
started. -/
theorem Dial_timeout_blocks (env : NetCollaborators) (n : Net) (address remoteAddr : String)
    (remotePublicKey : PublicKey) (data : HandshakeData) (session : NetworkSession)
    (payload : Bytes) (h0 : n.isShuttingDown = false)
    (h1 : env.dialTCP address = .ok remoteAddr)
    (h2 : env.generateHandshakeRequestData remotePublicKey = .ok (data, session))
    (h3 : env.marshalHandshake data = .ok payload)
    (h4 : env.formatterOut (newConnection env.uuid remoteAddr (some remotePublicKey)).conn
      payload = none) :
    ∃ rt, Dial env n address remotePublicKey .timeout = .blockedInClose rt ∧
      rt.closePending = true ∧ rt.loop = .notStarted ∧ rt.conn.session = none ∧
      rt.formatterCloses = 0 ∧ rt.closingSends = 0 := by
  simp only [newConnection] at h4
  refine ⟨{ newConnection env.uuid remoteAddr (some remotePublicKey) with
      framesOut := [payload], closeOnceDone := true, closePending := true, closeSends := 1 },
    ?_, rfl, rfl, rfl, rfl, rfl⟩
  simp [Dial, createSecuredConnection, createConnection, h0, h1, h2, h3, h4, closeAndFail,
    FormattedConnection.Close, newConnection]

/-- C17. A dial whose handshake response times out: `Dial` returns nothing to
its caller, it is parked in `conn.Close()`; the connection is not closed (the
formatter is open and nothing is published on the closing-connections
channel). -/
theorem Dial_timeout_never_returns :
    Dial sampleNetCollaborators sampleNet "10.0.0.7:7513" sampleKey .timeout =
      .blockedInClose
        { dialledConn with
          framesOut := [[1, 7001]], closeOnceDone := true, closePending := true,
          closeSends := 1 } ∧
    (∀ err, Dial sampleNetCollaborators sampleNet "10.0.0.7:7513" sampleKey .timeout ≠
      .failed err) := by
  constructor
  · decide
  · intro err h
    have h' : Dial sampleNetCollaborators sampleNet "10.0.0.7:7513" sampleKey .timeout =
        .blockedInClose
          { dialledConn with
            framesOut := [[1, 7001]], closeOnceDone := true, closePending := true,
            closeSends := 1 } := by decide
    rw [h'] at h
    cases h

/-! ## Connection pool: shutdown and the pending invariant -/

/-- The loop of `closeConnections` calls `Close` once on every stored
connection. -/
theorem closeConnections_eq_map (cp : ConnectionPool) :
    closeConnections cp = cp.connections.map Prod.snd := by
  have h : ∀ (l : List (String × Connection)) (acc : List Connection),
      l.foldl (fun calls kc => calls ++ [kc.2]) acc = acc ++ l.map Prod.snd := by
    intro l
    induction l with
    | nil => intro acc; simp
    | cons a rest ih => intro acc; simp [List.foldl, ih]
  simpa [closeConnections] using h cp.connections []

/-- A value read from a Go map is one of its stored values. -/
theorem mem_values_of_mapGet {α : Type} (m : List (String × α)) (k : String) (v : α)
    (h : mapGet m k = some v) : v ∈ m.map Prod.snd := by
  induction m with
  | nil => simp [mapGet] at h
  | cons p rest ih =>
    obtain ⟨k', v'⟩ := p
    by_cases hk : k' = k
    · simp only [mapGet, hk, if_true, Option.some.injEq] at h
      simp [h]
    · simp only [mapGet, hk, if_false] at h
      simp [ih h]

/-- `handleClosedConnection` touches neither `pending` nor the dial goroutines
nor the shutdown flag. -/
theorem handleClosedConnection_frame (cp : ConnectionPool) (conn : Connection) :
    (handleClosedConnection cp conn).pending = cp.pending ∧
    (handleClosedConnection cp conn).dialsInFlight = cp.dialsInFlight ∧
    (handleClosedConnection cp conn).shutdown = cp.shutdown := by
  simp only [handleClosedConnection]
  cases hq : mapGet cp.connections conn.remotePub.str with
  | none => cases ho : cp.OnClose <;> simp [ho]
  | some cur =>
    by_cases hid : cur.id = conn.id
    · cases ho : cp.OnClose <;> simp [ho, hid]
    · cases ho : cp.OnClose <;> simp [ho, hid]

/-- No pool operation changes the shutdown flag. -/
theorem applyOp_shutdown (cp : ConnectionPool) (op : PoolOp) :
    (applyOp cp op).shutdown = cp.shutdown := by
  cases op with
  | getConnection address remotePub =>
    simp only [applyOp, GetConnection]
    cases hs : cp.shutdown with
    | true => simp [hs]
    | false =>
      cases hc : mapGet cp.connections remotePub.str with
      | some conn => simp [hs]
      | none =>
        cases hp : mapGet cp.pending remotePub.str <;> simp [hs]
  | dialDone address remotePub r =>
    simp only [applyOp]
    split
    · cases r <;> simp [dialTask, handleDialResult, handleNewConnection]
    · rfl
  | newConnection rPub conn source => simp [applyOp, handleNewConnection, handleDialResult]
  | dialResult rPub result => simp [applyOp, handleDialResult]
  | closedConnection conn => exact (handleClosedConnection_frame cp conn).2.2

/-- A run of pool operations leaves the shutdown flag as it was. -/
theorem runOps_shutdown (ops : List PoolOp) :
    ∀ cp : ConnectionPool, (runOps cp ops).shutdown = cp.shutdown := by
  induction ops with
  | nil => intro cp; rfl
  | cons op rest ih =>
    intro cp
    simp only [runOps, List.foldl]
    exact (ih (applyOp cp op)).trans (applyOp_shutdown cp op)

/-- Whenever `Shutdown` of the pool gets to `closeConnections`, the calls of
`Close` are exactly one for each connection stored in the map at that time. -/
theorem Shutdown_closes_what_is_stored (cp : ConnectionPool) (waitCount : Nat)
    (during : List PoolOp) (calls : List Connection)
    (h : (Shutdown cp waitCount during).2 = .closed calls) :
    calls = (Shutdown cp waitCount during).1.connections.map Prod.snd := by
  unfold Shutdown at h ⊢
  cases hs : cp.shutdown with
  | true => simp [hs] at h
  | false =>
    simp only [hs] at h ⊢
    by_cases hw : dialEnds { cp with shutdown := true } during < waitCount
    · simp [hw] at h
    · simp only [Bool.false_eq_true, if_false, hw] at h ⊢
      cases h
      exact closeConnections_eq_map _

/-- The session of the concrete inputs is one the constructor makes. -/
theorem NewNetworkSession_sample :
    NewNetworkSession (List.replicate 16 3) (List.replicate 16 1) [2] [3] "local" "peer7" =
      .ok sampleSession := by
  decide

/-- C18. `Shutdown` does not call `Close` on every connection that was ever
stored. A connection stored for a peer and then replaced by a newer one for the
same peer is not among the connections `Shutdown` closes. And when `Shutdown`
reaches `Wait()` before a spawned dial goroutine has run `dialWait.Add(1)`, it
returns with that dial in flight; the connection the dial then stores is not
closed either. -/
theorem Shutdown_skips_superseded :
    mapGet (runOps NewConnectionPool
        [.newConnection sampleKey sampleConn .Local]).connections "peer7" = some sampleConn ∧
    (Shutdown (runOps NewConnectionPool
        [.newConnection sampleKey sampleConn .Local,
         .newConnection sampleKey sampleConn2 .Remote]) 0 []).2 = .closed [sampleConn2] ∧
    sampleConn ∉ [sampleConn2] ∧
    (Shutdown (runOps NewConnectionPool [.getConnection "10.0.0.7:7513" sampleKey]) 0 []).2 =
      .closed [] ∧
    mapGet (applyOp
        (Shutdown (runOps NewConnectionPool [.getConnection "10.0.0.7:7513" sampleKey]) 0 []).1
        (.dialDone "10.0.0.7:7513" sampleKey (.ok sampleConn))).connections "peer7" =
      some sampleConn := by
  decide

/-- One pool operation keeps the pending invariant: every pending entry is a
non-empty list and a dial goroutine for its key is in flight. -/
theorem applyOp_keeps_pending_invariant (cp : ConnectionPool) (op : PoolOp)
    (inv : ∀ k l, mapGet cp.pending k = some l →
      l ≠ [] ∧ ∃ a p, (a, p) ∈ cp.dialsInFlight ∧ p.str = k) :
    ∀ k l, mapGet (applyOp cp op).pending k = some l →
      l ≠ [] ∧ ∃ a p, (a, p) ∈ (applyOp cp op).dialsInFlight ∧ p.str = k := by
  have hdel : ∀ (q : ConnectionPool) (rPub : PublicKey) (result : dialResult) (k : String)
      (l : List Nat), mapGet (handleDialResult q rPub result).pending k = some l →
      k ≠ rPub.str ∧ mapGet q.pending k = some l := by
    intro q rPub result k l h
    simp only [handleDialResult] at h
    by_cases hk : k = rPub.str
    · rw [hk, mapGet_mapDelete_self] at h
      cases h
    · exact ⟨hk, by rwa [mapGet_mapDelete_ne _ _ _ hk] at h⟩
  cases op with
  | getConnection address remotePub =>
    intro k l h
    simp only [applyOp] at h ⊢
    cases hs : cp.shutdown with
    | true =>
      have e : GetConnection cp address remotePub =
          (cp, .done none (some (.other "ConnectionPool was shut down"))) := by
        simp [GetConnection, hs]
      rw [e] at h ⊢
      exact inv k l h
    | false =>
      cases hc : mapGet cp.connections remotePub.str with
      | some conn =>
        have e : GetConnection cp address remotePub = (cp, .done (some conn) none) := by
          simp [GetConnection, hs, hc]
        rw [e] at h ⊢
        exact inv k l h
      | none =>
        cases hp : mapGet cp.pending remotePub.str with
        | none =>
          rw [GetConnection_of_no_pending cp address remotePub hs hc hp] at h ⊢
          simp only at h ⊢
          by_cases hk : k = remotePub.str
          · rw [hk, mapGet_mapSet_self] at h
            cases h
            exact ⟨by simp, address, remotePub, by simp, hk.symm⟩
          · rw [mapGet_mapSet_ne _ _ _ _ hk] at h
            obtain ⟨h1, a, p, h2, h3⟩ := inv k l h
            exact ⟨h1, a, p, by simp [h2], h3⟩
        | some waiting =>
          rw [GetConnection_of_pending cp address remotePub waiting hs hc hp] at h ⊢
          simp only at h ⊢
          by_cases hk : k = remotePub.str
          · rw [hk, mapGet_mapSet_self] at h
            cases h
            obtain ⟨-, a, p, h2, h3⟩ := inv remotePub.str waiting hp
            exact ⟨by simp, a, p, h2, by rw [h3, hk]⟩
          · rw [mapGet_mapSet_ne _ _ _ _ hk] at h
            exact inv k l h
  | dialDone address remotePub r =>
    intro k l h
    simp only [applyOp] at h ⊢
    by_cases hin : (address, remotePub) ∈ cp.dialsInFlight
    · simp only [hin, if_true] at h ⊢
      have hold : k ≠ remotePub.str ∧ mapGet cp.pending k = some l := by
        cases r with
        | error err =>
          simp only [dialTask] at h
          exact hdel cp remotePub _ k l h
        | ok conn =>
          simp only [dialTask, handleNewConnection] at h
          exact hdel { cp with connections := mapSet cp.connections remotePub.str conn }
            remotePub { conn := some conn, err := none } k l h
      obtain ⟨h1, a, p, h2, h3⟩ := inv k l hold.2
      refine ⟨h1, a, p, ?_, h3⟩
      have hne : (a, p) ≠ (address, remotePub) := by
        intro e
        have : p = remotePub := congrArg Prod.snd e
        exact hold.1 (by rw [← h3, this])
      cases r with
      | error err =>
        simp only [dialTask, handleDialResult]
        exact (List.mem_erase_of_ne hne).mpr h2
      | ok conn =>
        simp only [dialTask, handleNewConnection, handleDialResult]
        exact (List.mem_erase_of_ne hne).mpr h2
    · simp only [hin, if_false] at h ⊢
      exact inv k l h
  | newConnection rPub conn source =>
    intro k l h
    simp only [applyOp, handleNewConnection] at h ⊢
    exact inv k l (hdel { cp with connections := mapSet cp.connections rPub.str conn }
      rPub { conn := some conn, err := none } k l h).2
  | dialResult rPub result =>
    intro k l h
    simp only [applyOp] at h ⊢
    exact inv k l (hdel cp rPub result k l h).2
  | closedConnection conn =>
    intro k l h
    simp only [applyOp] at h ⊢
    obtain ⟨e1, e2, -⟩ := handleClosedConnection_frame cp conn
    rw [e1] at h
    rw [e2]
    exact inv k l h

/-- The pending invariant. In every pool state reached from the new pool by
registrations `GetConnection`, ends of dial goroutines (success or failure),
arrivals of
connections, dial results and closes of connections: whenever a key has a
pending entry, the entry is a non-empty list and at least one dial goroutine
for that key is in flight; and when a dial goroutine for that key ends, with
either result, that result is sent to every sink of the entry and the entry is
removed. -/
theorem pending_has_dial_in_flight (ops : List PoolOp) (k : String) (l : List Nat)
    (h : mapGet (runOps NewConnectionPool ops).pending k = some l) :
    l ≠ [] ∧
    (∃ a p, (a, p) ∈ (runOps NewConnectionPool ops).dialsInFlight ∧ p.str = k) ∧
    ∀ a p, (a, p) ∈ (runOps NewConnectionPool ops).dialsInFlight → p.str = k →
      (∀ err,
        (applyOp (runOps NewConnectionPool ops) (.dialDone a p (.error err))).delivered =
          (runOps NewConnectionPool ops).delivered ++
            l.map (fun s => (s, { conn := none, err := some err })) ∧
        mapGet (applyOp (runOps NewConnectionPool ops) (.dialDone a p (.error err))).pending k
          = none) ∧
      (∀ conn,
        (applyOp (runOps NewConnectionPool ops) (.dialDone a p (.ok conn))).delivered =
          (runOps NewConnectionPool ops).delivered ++
            l.map (fun s => (s, { conn := some conn, err := none })) ∧
        mapGet (applyOp (runOps NewConnectionPool ops) (.dialDone a p (.ok conn))).pending k
          = none) := by
  have main : ∀ (ops : List PoolOp) (cp : ConnectionPool),
      (∀ k l, mapGet cp.pending k = some l →
        l ≠ [] ∧ ∃ a p, (a, p) ∈ cp.dialsInFlight ∧ p.str = k) →
      ∀ k l, mapGet (runOps cp ops).pending k = some l →
        l ≠ [] ∧ ∃ a p, (a, p) ∈ (runOps cp ops).dialsInFlight ∧ p.str = k := by
    intro ops
    induction ops with
    | nil => intro cp inv; exact inv
    | cons op rest ih =>
      intro cp inv
      simp only [runOps, List.foldl]
      exact ih (applyOp cp op) (applyOp_keeps_pending_invariant cp op inv)
  have hinv := main ops NewConnectionPool
    (by intro k l h; simp [NewConnectionPool, mapGet] at h) k l h
  refine ⟨hinv.1, hinv.2, ?_⟩
  intro a p hin hk
  subst hk
  constructor
  · intro err
    simp only [applyOp, hin, if_true, dialTask]
    refine ⟨?_, ?_⟩
    · rw [handleDialResult_delivered, h]
      rfl
    · simp only [handleDialResult]
      exact mapGet_mapDelete_self _ _
  · intro conn
    simp only [applyOp, hin, if_true, dialTask, handleNewConnection]
    refine ⟨?_, ?_⟩
    · rw [handleDialResult_delivered]
      simp only [h, Option.getD_some]
    · simp only [handleDialResult]
      exact mapGet_mapDelete_self _ _

/-- The pending invariant on a run: two callers register for the peer, a remote
connection
arrives and is closed, and a third caller registers; the first dial is still
in flight, a second one has been started, and the pending entry holds the
third caller. -/
theorem pending_has_dial_in_flight_witness :
    mapGet (runOps NewConnectionPool
        [.getConnection "10.0.0.7:7513" sampleKey, .getConnection "10.0.0.7:7513" sampleKey,
         .newConnection sampleKey sampleConn .Remote, .closedConnection sampleConn,
         .getConnection "10.0.0.7:7513" sampleKey]).pending "peer7" = some [2] ∧
    ([2] ≠ [] ∧ ∃ a p, (a, p) ∈ (runOps NewConnectionPool
        [.getConnection "10.0.0.7:7513" sampleKey, .getConnection "10.0.0.7:7513" sampleKey,
         .newConnection sampleKey sampleConn .Remote, .closedConnection sampleConn,
         .getConnection "10.0.0.7:7513" sampleKey]).dialsInFlight ∧ p.str = "peer7") :=
  have h := pending_has_dial_in_flight
    [.getConnection "10.0.0.7:7513" sampleKey, .getConnection "10.0.0.7:7513" sampleKey,
     .newConnection sampleKey sampleConn .Remote, .closedConnection sampleConn,
     .getConnection "10.0.0.7:7513" sampleKey] "peer7" [2] (by decide)
  ⟨by decide, h.1, h.2.1⟩

/-- A dial goroutine whose handshake response times out never reaches lines
184-189: the pool is left as it is, with the waiters still registered, for all
collaborators and every pool. -/
theorem dialGoroutine_timeout_parks (env : NetCollaborators) (n : Net) (cp : ConnectionPool)
    (address remoteAddr : String) (remotePub : PublicKey) (data : HandshakeData)
    (session : NetworkSession) (payload : Bytes) (h0 : n.isShuttingDown = false)
    (h1 : env.dialTCP address = .ok remoteAddr)
    (h2 : env.generateHandshakeRequestData remotePub = .ok (data, session))
    (h3 : env.marshalHandshake data = .ok payload)
    (h4 : env.formatterOut (newConnection env.uuid remoteAddr (some remotePub)).conn
      payload = none) :
    dialGoroutine env n cp address remotePub .timeout = cp := by
  obtain ⟨rt, hrt, -⟩ :=
    Dial_timeout_blocks env n address remoteAddr remotePub data session payload h0 h1 h2 h3 h4
  simp [dialGoroutine, hrt]

/-- C20. A registered waiter is left without a dial that delivers it a result:
a caller of `GetConnection` registers sink 0 and a dial is started; the
handshake response of that dial times out, the dial goroutine parks in
`conn.Close()` and leaves the pool as it is; the pending entry still holds the
sink, the dial is still counted in flight and nothing has been sent on the
sink. -/
theorem waiter_never_served_on_handshake_timeout :
    (GetConnection NewConnectionPool "10.0.0.7:7513" sampleKey).2 = .waiting 0 ∧
    dialGoroutine sampleNetCollaborators sampleNet
        (GetConnection NewConnectionPool "10.0.0.7:7513" sampleKey).1 "10.0.0.7:7513" sampleKey
        .timeout =
      (GetConnection NewConnectionPool "10.0.0.7:7513" sampleKey).1 ∧
    mapGet (GetConnection NewConnectionPool "10.0.0.7:7513" sampleKey).1.pending "peer7" =
      some [0] ∧
    (GetConnection NewConnectionPool "10.0.0.7:7513" sampleKey).1.dialsInFlight =
      [("10.0.0.7:7513", sampleKey)] ∧
    (GetConnection NewConnectionPool "10.0.0.7:7513" sampleKey).1.delivered = [] := by
  decide

/-! ## Connection pool: the read lock of `GetConnectionIfExist` -/

/-- The two paths of `GetConnectionIfExist` that release the read lock: the
pool is shut down, or the key is found. -/
theorem GetConnectionIfExist_releases_when_found_or_shut_down (cp : ConnectionPool)
    (readers : Nat) (remotePub : String)
    (h : cp.shutdown = true ∨ ∃ conn, mapGet cp.connections remotePub = some conn) :
    (GetConnectionIfExist cp readers remotePub).2 = readers := by
  unfold GetConnectionIfExist
  cases hs : cp.shutdown with
  | true => simp
  | false =>
    rcases h with h | ⟨conn, hc⟩
    · rw [hs] at h; cases h
    · simp [hc]

/-- When the pool is not shut down and the key is absent, the call returns the
error of line 151 with the read lock still held. -/
theorem GetConnectionIfExist_keeps_lock_when_absent (cp : ConnectionPool) (readers : Nat)
    (remotePub : String) (hs : cp.shutdown = false)
    (hc : mapGet cp.connections remotePub = none) :
    GetConnectionIfExist cp readers remotePub =
      ((none, some (.other "there is no connection with this key")), readers + 1) := by
  simp [GetConnectionIfExist, hs, hc]

/-- C21. On the new pool, where the key "peer7" is absent,
`GetConnectionIfExist` returns its error with one read lock more held than
before the call; with the key stored the count is the same as before. -/
theorem GetConnectionIfExist_absent_leaks_read_lock :
    GetConnectionIfExist NewConnectionPool 0 "peer7" =
      ((none, some (.other "there is no connection with this key")), 1) ∧
    (GetConnectionIfExist (handleNewConnection NewConnectionPool sampleKey sampleConn .Local)
        0 "peer7").2 = 0 := by
  decide

/-! ## Swarm: a second `Shutdown` -/

/-- A call of `Shutdown` of the swarm leaves the channel `shutdown` closed, and
a call that finds it closed panics: in every state the second of two calls
panics. -/
theorem swarm_Shutdown_twice_panics (l : SwarmLifecycle) :
    (swarm.Shutdown l).2.shutdownClosed = true ∧
    (swarm.Shutdown (swarm.Shutdown l).2).1 = .panicked := by
  cases h : l.shutdownClosed with
  | true => simp [swarm.Shutdown, h]
  | false => simp [swarm.Shutdown, h, swarm.shutdownInternal]

/-- C22. A second invocation of `Shutdown` of the swarm panics: after `Start`
has called `Shutdown` on a bootstrap failure, after the time-drift monitor has
called it, and after a first call by the owner. -/
theorem swarm_second_Shutdown_panics :
    (swarm.Start true (some (.other "bootstrap failed")) sampleLifecycle).1 =
      .returned (some (.other "bootstrap failed")) ∧
    (swarm.Shutdown
      (swarm.Start true (some (.other "bootstrap failed")) sampleLifecycle).2).1 = .panicked ∧
    (swarm.checkTimeDriftsTick (some (.other "clock drift")) sampleLifecycle).1 =
      .returned none ∧
    (swarm.Shutdown
      (swarm.checkTimeDriftsTick (some (.other "clock drift")) sampleLifecycle).2).1 =
      .panicked ∧
    (swarm.Shutdown sampleLifecycle).1 = .returned none ∧
    (swarm.Shutdown (swarm.Shutdown sampleLifecycle).2).1 = .panicked := by
  decide

end P2P
